import Mathlib

/-!
Verification development for the Reference Reconciliation & Batch Import
Engine of the zotero-keeper repository (mcp-server). The Python modules
are shallowly embedded as Lean definitions:

* `smart_tools.py` — title normalization, identifier extraction, tiered
  duplicate matching (`find_duplicates`);
* `pubmed_mapper.py` — `map_pubmed_to_zotero` and its helpers;
* `client.py` — `batch_check_identifiers` (paged duplicate scan);
* `batch_result.py` — `ImportAction`, `ImportedItem`, `BatchImportResult`,
  `add_item`, `generate_report`;
* `batch_tools.py` — collection validation and the batch orchestrator
  `batch_import_from_pubmed` (modelled from the point where PMIDs are
  parsed and articles fetched; network fetches are inputs).

Python dictionaries with a fixed field set are embedded as structures with
`Option` fields (`none` = key absent); `x.get(k, d)` becomes `Option.getD`;
Python truthiness of a string-valued field is `strTruthy`/`strTruthyO`.
Regular-expression scans used by the source (`KIND:\s*(\S+)` and
`PMID:\s*(\d+)`, case-insensitive) are embedded character by character for
ASCII text, which is the alphabet of identifiers handled by the code.
-/

namespace ZK

/-- ASCII lower-casing of one character, the fragment of `str.lower()`
exercised by identifiers and collection names. -/
def asciiLower (c : Char) : Char :=
  if c.isUpper then Char.ofNat (c.toNat + 32) else c

/-- Python whitespace class `\s` (ASCII part). -/
def isPySpace (c : Char) : Bool :=
  c = ' ' || c = '\t' || c = '\n' || c = '\r' || c = '\x0b' || c = '\x0c'

/-- Python word class `\w` (ASCII part): alphanumeric or underscore. -/
def isWordChar (c : Char) : Bool :=
  c.isAlphanum || c = '_'

/-- Embedding of `str.lower()`. -/
def strLower (s : String) : String :=
  String.mk (s.data.map asciiLower)

/-- Characters of a list with leading and trailing whitespace removed,
embedding `str.strip()`. -/
def stripChars (l : List Char) : List Char :=
  ((l.dropWhile isPySpace).reverse.dropWhile isPySpace).reverse

/-- Embedding of `str.strip()`. -/
def pyStrip (s : String) : String :=
  String.mk (stripChars s.data)

/-- Collapse every whitespace run to a single space, embedding
`re.sub(r"\s+", " ", ...)`. -/
def collapseWs : List Char → List Char
  | [] => []
  | [c] => if isPySpace c then [' '] else [c]
  | a :: b :: rest =>
    if isPySpace a && isPySpace b then collapseWs (b :: rest)
    else (if isPySpace a then ' ' else a) :: collapseWs (b :: rest)

/-- Embedding of `_normalize_title` from `smart_tools.py` (the identical
copy in `interactive_tools.py` is shared): lower-case, replace
non-word/non-space characters by spaces, collapse whitespace runs, strip. -/
def normalize_title (title : String) : String :=
  String.mk (stripChars (collapseWs
    ((strLower title).data.map
      (fun c => if isWordChar c || isPySpace c then c else ' '))))

/-- Whether `hay` starts with `pat`, both already lower-cased. -/
def startsWithChars : List Char → List Char → Bool
  | [], _ => true
  | _ :: _, [] => false
  | p :: ps, h :: hs => (p = h) && startsWithChars ps hs

/-- Whether `hay` contains `pat` as a contiguous run (both already
lower-cased); embeds Python substring membership `pat in hay`. -/
def containsChars (pat : List Char) : List Char → Bool
  | [] => startsWithChars pat []
  | h :: hs => startsWithChars pat (h :: hs) || containsChars pat hs

/-- Case-insensitive substring test: `pat.lower() in hay.lower()`. -/
def containsCI (hay pat : String) : Bool :=
  containsChars (strLower pat).data (strLower hay).data

/-- Whether `hay` starts with the lower-cased pattern `pat`, comparing
case-insensitively. -/
def startsWithCI : List Char → List Char → Bool
  | [], _ => true
  | _ :: _, [] => false
  | p :: ps, h :: hs => (asciiLower h = p) && startsWithCI ps hs

/-- At a fixed position, after a matched pattern of length `patLen`, skip
the whitespace run and take the maximal capture run; `none` when the
capture would be empty. -/
def captureAfter (patLen : Nat) (isCap : Char → Bool) (hay : List Char) :
    Option (List Char) :=
  let cap := ((hay.drop patLen).dropWhile isPySpace).takeWhile isCap
  if cap = [] then none else some cap

/-- Embedding of `re.search(rf"PAT:\s*(C+)", hay, re.IGNORECASE)` for a
literal pattern `pat` (given lower-cased, colon included) and a capture
class `isCap` (`\S` or `\d`): scan positions left to right, at each
position require the pattern then a possibly-empty whitespace run then a
non-empty capture run. -/
def searchCapture (pat : List Char) (isCap : Char → Bool) :
    List Char → Option (List Char)
  | [] => none
  | h :: hs =>
    if startsWithCI pat (h :: hs) then
      match captureAfter pat.length isCap (h :: hs) with
      | some cap => some cap
      | none => searchCapture pat isCap hs
    else searchCapture pat isCap hs

/-- Python truthiness of a string. -/
def strTruthy (s : String) : Bool := s ≠ ""

/-- Python truthiness of `dict.get(k)` for a string-valued key. -/
def strTruthyO (o : Option String) : Bool := strTruthy (o.getD "")

/-- Identifier kinds checked by the matcher, in the order of
`EXACT_MATCH_FIELDS = ["DOI", "ISBN", "PMID"]` in `smart_tools.py`. -/
inductive IdKind
  | DOI
  | ISBN
  | PMID
deriving DecidableEq, Repr

/-- Dictionary key used for an identifier kind. -/
def kindName : IdKind → String
  | .DOI => "DOI"
  | .ISBN => "ISBN"
  | .PMID => "PMID"

/-- Item dictionary as read by `smart_tools.py`: candidate records and
search results alike. `none` models an absent key; `dataTitle` models the
nested `item["data"]["title"]` of stored items. -/
structure SItem where
  key : Option String := none
  title : Option String := none
  dataTitle : Option String := none
  doi : Option String := none
  isbn : Option String := none
  pmid : Option String := none
  extra : Option String := none
deriving DecidableEq, Repr

/-- Direct dictionary lookup `item.get(field)` for an identifier field. -/
def fieldGet (it : SItem) : IdKind → Option String
  | .DOI => it.doi
  | .ISBN => it.isbn
  | .PMID => it.pmid

/-- Second tier of `_extract_identifier`: when the direct field is absent
or falsy, scan the free-text `extra` field for `KIND:\s*(\S+)`,
case-insensitively, returning the captured token stripped and
lower-cased. -/
def extractFromExtra (it : SItem) (k : IdKind) : Option String :=
  let ex := it.extra.getD ""
  if strTruthy ex && containsCI ex (kindName k) then
    match searchCapture ((strLower (kindName k) ++ ":").data)
        (fun c => !isPySpace c) ex.data with
    | some cap => some (strLower (pyStrip (String.mk cap)))
    | none => none
  else none

/-- Embedding of `_extract_identifier` from `smart_tools.py`. -/
def extract_identifier (it : SItem) (k : IdKind) : Option String :=
  match fieldGet it k with
  | some v => if strTruthy v then some (strLower (pyStrip v)) else extractFromExtra it k
  | none => extractFromExtra it k

/-- Display title of a stored item:
`existing.get("data", {}).get("title", existing.get("title", ""))`. -/
def displayTitle (it : SItem) : String :=
  it.dataTitle.getD (it.title.getD "")

/-- One entry of the list returned by `_find_duplicates`. Exact matches
carry the identifier; fuzzy matches do not (their dictionary has no
`identifier` key) and may lack `key`/`title`. -/
structure MatchCand where
  key : Option String := none
  title : Option String := none
  match_type : String
  score : Nat
  identifier : Option String := none
deriving DecidableEq, Repr

/-- External collaborators of `_find_duplicates`: the Zotero client
searches (`search_items(query, limit=10)`), the bounded recent-item fetch
(`get_items(limit)`), and the rapidfuzz `token_sort_ratio` scorer, all
treated as oracles supplied to the run. -/
structure SmartClient where
  searchItems : String → List SItem
  getItems : Nat → List SItem
  scorer : String → String → Nat

/-- Exact-match entry built inside the identifier loop of
`_find_duplicates`: tier `exact_<field>`, score 100. -/
def mkExactCand (ex : SItem) (k : IdKind) (id : String) : MatchCand :=
  { key := ex.key
    title := some (displayTitle ex)
    match_type := "exact_" ++ kindName k
    score := 100
    identifier := some id }

/-- Matches contributed by one identifier kind: extract the candidate
identifier; when truthy, keep every search result whose own extracted
identifier is truthy and equal. -/
def kindMatches (cl : SmartClient) (item : SItem) (k : IdKind) : List MatchCand :=
  let idf := extract_identifier item k
  if strTruthyO idf then
    let id := idf.getD ""
    (cl.searchItems id).filterMap (fun ex =>
      let exid := extract_identifier ex k
      if strTruthyO exid && (exid == some id) then some (mkExactCand ex k id)
      else none)
  else []

/-- The exact-identifier loop of `_find_duplicates`: every kind in
`EXACT_MATCH_FIELDS` order contributes, results are appended. -/
def exactMatches (cl : SmartClient) (item : SItem) : List MatchCand :=
  kindMatches cl item .DOI ++ kindMatches cl item .ISBN ++ kindMatches cl item .PMID

/-- Fuzzy comparison pool: normalized titles of the fetched recent items,
keeping for each normalized title the last item carrying it (dictionary
assignment overwrites). -/
def fuzzyPool (items : List SItem) : List String × List (String × SItem) :=
  items.foldl
    (fun acc ex =>
      let t := displayTitle ex
      if strTruthy t then
        let nt := normalize_title t
        if strTruthy nt then
          (acc.1 ++ [nt],
           (acc.2.filter (fun p => p.1 ≠ nt)) ++ [(nt, ex)])
        else acc
      else acc)
    ([], [])

/-- Insertion into a list sorted by descending score (stable). -/
def insertDescBy (score : α → Nat) (x : α) : List α → List α
  | [] => [x]
  | y :: ys => if score y < score x then x :: y :: ys else y :: insertDescBy score x ys

/-- Stable sort by descending score. -/
def sortDescBy (score : α → Nat) : List α → List α
  | [] => []
  | x :: xs => insertDescBy score x (sortDescBy score xs)

/-- Model of `rapidfuzz.process.extract(query, choices, scorer, limit=5)`:
score every choice and keep the top five by descending score. -/
def extractTop5 (scorer : String → String → Nat) (query : String)
    (choices : List String) : List (String × Nat) :=
  (sortDescBy Prod.snd (choices.map (fun c => (c, scorer query c)))).take 5

/-- Fuzzy-title pass of `_find_duplicates`: fetch `limit` recent items,
score the normalized candidate title against their normalized titles and
keep matches at or above `TITLE_MATCH_THRESHOLD = 85` as `fuzzy_title`
entries. -/
def fuzzyMatches (cl : SmartClient) (nt : String) (limit : Nat) : List MatchCand :=
  let pool := fuzzyPool (cl.getItems limit)
  if pool.1 ≠ [] then
    (extractTop5 cl.scorer nt pool.1).filterMap (fun m =>
      if 85 ≤ m.2 then
        match pool.2.lookup m.1 with
        | some ex => some { key := ex.key, title := some (displayTitle ex),
                            match_type := "fuzzy_title", score := m.2 }
        | none => some { key := none, title := none,
                         match_type := "fuzzy_title", score := m.2 }
      else none)
  else []

/-- Embedding of `_find_duplicates` from `smart_tools.py`. The second
component records whether the fuzzy pass (the `get_items` fetch and title
scoring) was reached. A blank normalized candidate title short-circuits to
an empty result; a non-empty exact-identifier result is returned without
any fuzzy comparison. -/
def find_duplicates (cl : SmartClient) (item : SItem) (limit : Nat := 100) :
    List MatchCand × Bool :=
  let nt := normalize_title (item.title.getD "")
  if nt = "" then ([], false)
  else
    let exact := exactMatches cl item
    if exact = [] then (fuzzyMatches cl nt limit, true) else (exact, false)

/-- Structured author entry of a PubMed article (`authors_full` element of
dictionary shape); `affiliations = none` models the `"affiliations"` key
being absent. -/
structure PAuthorDict where
  fore_name : Option String := none
  forename : Option String := none
  last_name : Option String := none
  lastname : Option String := none
  affiliations : Option (List String) := none
deriving DecidableEq, Repr

/-- An `authors_full` element: a structured dictionary or a plain name
string. -/
inductive PAuthor
  | dict (d : PAuthorDict)
  | str (s : String)
deriving DecidableEq, Repr

/-- PubMed article dictionary as consumed by `map_pubmed_to_zotero`
(`pubmed_mapper.py`). `none` models an absent key; list-valued keys with
default `[]` are plain lists. `year`, `month` and `day` travel as their
`str(...)` images. -/
structure Article where
  pmid : Option String := none
  title : Option String := none
  abstract : Option String := none
  authors_full : List PAuthor := []
  authors : List String := []
  journal : Option String := none
  journal_abbrev : Option String := none
  year : Option String := none
  month : Option String := none
  day : Option String := none
  volume : Option String := none
  issue : Option String := none
  pages : Option String := none
  doi : Option String := none
  issn : Option String := none
  language : Option String := none
  pmc_id : Option String := none
  publication_types : List String := []
  keywords : List String := []
  mesh_terms : List String := []
deriving DecidableEq, Repr

/-- A Zotero creator dictionary (`creatorType`/`firstName`/`lastName`). -/
structure Creator where
  creatorType : String
  firstName : String
  lastName : String
deriving DecidableEq, Repr

/-- Value of one key of the produced Zotero item dictionary. Tag entries
`{"tag": t}` are carried as their tag strings. -/
inductive ZVal
  | s (v : String)
  | creators (v : List Creator)
  | tags (v : List String)
deriving DecidableEq, Repr

/-- Embedding of `str.rsplit(" ", 1)` as used on author name strings:
`none` when the string holds no space, otherwise the parts before and
after the last space. -/
def rsplitOnce (s : String) : Option (String × String) :=
  let r := s.data.reverse
  let lastWord := r.takeWhile (fun c => c ≠ ' ')
  let rest := r.dropWhile (fun c => c ≠ ' ')
  match rest with
  | [] => none
  | _ :: before => some (String.mk before.reverse, String.mk lastWord.reverse)

/-- Creator built from a plain author name string: split at the last
space; a single token becomes a bare last name. -/
def creatorOfString (s : String) : Creator :=
  match rsplitOnce s with
  | some (fn, ln) => { creatorType := "author", firstName := fn, lastName := ln }
  | none => { creatorType := "author", firstName := "", lastName := s }

/-- Creator built from an `authors_full` entry (dictionary or string
shape), as in the first creators loop of `map_pubmed_to_zotero`. -/
def creatorOfAuthor : PAuthor → Creator
  | .dict d =>
    { creatorType := "author"
      firstName := d.fore_name.getD (d.forename.getD "")
      lastName := d.last_name.getD (d.lastname.getD "") }
  | .str s => creatorOfString s

/-- Embedding of `str(n).zfill(2)`. -/
def zfill2 (s : String) : String :=
  if 2 ≤ s.length then s else String.mk (List.replicate (2 - s.length) '0' ++ s.data)

/-- Embedding of `str.isdigit()` for ASCII digits. -/
def isDigits (s : String) : Bool :=
  s ≠ "" && s.data.all Char.isDigit

/-- Decimal value of an all-digit string, embedding `int(s)`. -/
def natOfDigits (s : String) : Nat :=
  s.data.foldl (fun n c => n * 10 + (c.toNat - 48)) 0

/-- The fixed month lookup table of `_month_to_number`. -/
def monthMap : List (String × String) :=
  [("jan", "01"), ("january", "01"), ("feb", "02"), ("february", "02"),
   ("mar", "03"), ("march", "03"), ("apr", "04"), ("april", "04"),
   ("may", "05"), ("jun", "06"), ("june", "06"), ("jul", "07"),
   ("july", "07"), ("aug", "08"), ("august", "08"), ("sep", "09"),
   ("september", "09"), ("oct", "10"), ("october", "10"), ("nov", "11"),
   ("november", "11"), ("dec", "12"), ("december", "12")]

/-- Embedding of `_month_to_number` from `pubmed_mapper.py`. -/
def month_to_number (month : String) : Option String :=
  if month = "" then none
  else if isDigits month then some (zfill2 (toString (natOfDigits month)))
  else monthMap.lookup (pyStrip (strLower month))

/-- Append affiliation strings that are truthy and not yet collected,
preserving first-seen order. -/
def addAffiliations (acc : List String) : List String → List String
  | [] => acc
  | a :: rest =>
    if strTruthy a && decide (a ∉ acc) then addAffiliations (acc ++ [a]) rest
    else addAffiliations acc rest

/-- Embedding of `_extract_unique_affiliations`: affiliations of
dictionary-shaped authors whose `"affiliations"` key is present,
deduplicated in first-seen order. -/
def extract_unique_affiliations (authorsFull : List PAuthor) : List String :=
  authorsFull.foldl
    (fun acc au =>
      match au with
      | .dict d =>
        match d.affiliations with
        | some l => addAffiliations acc l
        | none => acc
      | .str _ => acc)
    []

/-- Creators list of the mapped item: the `authors_full` loop keeps only
entries with a truthy last name; when it yields nothing and the plain
`authors` list is non-empty, every plain name is kept unconditionally. -/
def mappedCreators (a : Article) : List Creator :=
  let fromFull := a.authors_full.filterMap (fun au =>
    let c := creatorOfAuthor au
    if strTruthy c.lastName then some c else none)
  if fromFull = [] && decide (a.authors ≠ []) then a.authors.map creatorOfString
  else fromFull

/-- Date string of the mapped item: year, then a recognized month, then a
zero-padded day, hyphen-joined; empty list (no truthy year) yields no
`date` key. -/
def mappedDateParts (a : Article) : List String :=
  if strTruthyO a.year then
    [a.year.getD ""] ++
      (if strTruthyO a.month then
        match month_to_number (a.month.getD "") with
        | some mn =>
          [mn] ++ (if strTruthyO a.day then [zfill2 (a.day.getD "")] else [])
        | none => []
      else [])
  else []

/-- Lines of the `extra` field: PMID, PMCID, publication types, then up to
five unique affiliations with a remainder count. -/
def mappedExtraParts (a : Article) : List String :=
  (if strTruthyO a.pmid then ["PMID: " ++ a.pmid.getD ""] else []) ++
  (if strTruthyO a.pmc_id then ["PMCID: " ++ a.pmc_id.getD ""] else []) ++
  (if a.publication_types ≠ [] then
    ["Publication Type: " ++ String.intercalate ", " a.publication_types]
  else []) ++
  (let affs := extract_unique_affiliations a.authors_full
   if affs ≠ [] then
     ["Affiliations:\n" ++
       String.intercalate "\n" ((affs.take 5).map (fun x => "  - " ++ x))] ++
     (if 5 < affs.length then
       ["  ... and " ++ toString (affs.length - 5) ++ " more"] else [])
   else [])

/-- Tag list of the mapped item: stripped truthy keywords, prefixed MeSH
terms, then user tags that are not already present case-insensitively. -/
def mappedTags (a : Article) (extra_tags : Option (List String)) : List String :=
  let base :=
    a.keywords.filterMap (fun kw =>
      if strTruthy kw && strTruthy (pyStrip kw) then some (pyStrip kw) else none) ++
    a.mesh_terms.filterMap (fun m =>
      if strTruthy m && strTruthy (pyStrip m) then some ("MeSH: " ++ pyStrip m) else none)
  (extra_tags.getD []).foldl
    (fun acc tg =>
      if strTruthy tg && strTruthy (pyStrip tg) then
        if acc.any (fun t => strLower t = strLower (pyStrip tg)) then acc
        else acc ++ [pyStrip tg]
      else acc)
    base

/-- Embedding of `map_pubmed_to_zotero` from `pubmed_mapper.py` as it
stands in the source tree: signature `(article, extra_tags=None)`, no
`collection_keys` parameter. The produced Zotero item dictionary is the
key/value list in insertion order; `itemType`, `title` and `abstractNote`
are always set (the latter two defaulting to the empty string), every
other key is set only when its source data is truthy/non-empty. -/
def map_pubmed_to_zotero (a : Article) (extra_tags : Option (List String) := none) :
    List (String × ZVal) :=
  [("itemType", ZVal.s "journalArticle"),
   ("title", ZVal.s (a.title.getD "")),
   ("abstractNote", ZVal.s (a.abstract.getD ""))] ++
  (let cs := mappedCreators a
   if cs ≠ [] then [("creators", ZVal.creators cs)] else []) ++
  (if strTruthyO a.journal then [("publicationTitle", ZVal.s (a.journal.getD ""))] else []) ++
  (if strTruthyO a.journal_abbrev then
    [("journalAbbreviation", ZVal.s (a.journal_abbrev.getD ""))] else []) ++
  (let dp := mappedDateParts a
   if dp ≠ [] then [("date", ZVal.s (String.intercalate "-" dp))] else []) ++
  (if strTruthyO a.volume then [("volume", ZVal.s (a.volume.getD ""))] else []) ++
  (if strTruthyO a.issue then [("issue", ZVal.s (a.issue.getD ""))] else []) ++
  (if strTruthyO a.pages then [("pages", ZVal.s (a.pages.getD ""))] else []) ++
  (if strTruthyO a.doi then [("DOI", ZVal.s (a.doi.getD ""))] else []) ++
  (if strTruthyO a.issn then [("ISSN", ZVal.s (a.issn.getD ""))] else []) ++
  (if strTruthyO a.language then [("language", ZVal.s (a.language.getD ""))] else []) ++
  (let ep := mappedExtraParts a
   if ep ≠ [] then [("extra", ZVal.s (String.intercalate "\n" ep))] else []) ++
  (let ts := mappedTags a extra_tags
   if ts ≠ [] then [("tags", ZVal.tags ts)] else [])

/-- Library item as read by `batch_check_identifiers` (`client.py`):
`doi` and `extra` are the fields of `item.get("data", item)`, `key` is
`item.get("key", "")`. -/
structure LibItem where
  doi : Option String := none
  extra : Option String := none
  key : String := ""
deriving DecidableEq, Repr

/-- Return value of `batch_check_identifiers`. Python sets and dicts are
carried as lists: membership models set membership, and `dictInsert`
models overwriting dictionary assignment. -/
structure CheckResult where
  existing_pmids : List String := []
  existing_dois : List String := []
  pmid_to_key : List (String × String) := []
  doi_to_key : List (String × String) := []
deriving DecidableEq, Repr

/-- Set insertion (no duplicate entries). -/
def setInsert (s : List String) (x : String) : List String :=
  if x ∈ s then s else s ++ [x]

/-- Dictionary assignment `m[k] = v`: overwrite an existing binding or
append a new one. -/
def dictInsert (m : List (String × String)) (k v : String) : List (String × String) :=
  if m.any (fun p => p.1 = k) then
    m.map (fun p => if p.1 = k then (k, v) else p)
  else m ++ [(k, v)]

/-- Dictionary lookup `m.get(k, d)`. -/
def dictGetD (m : List (String × String)) (k d : String) : String :=
  match m.lookup k with
  | some v => v
  | none => d

/-- Lower-cased DOI of a library item when truthy
(`item_doi = data.get("DOI", ""); if item_doi: item_doi.lower()`). -/
def doiKeyOf (it : LibItem) : Option String :=
  let d := it.doi.getD ""
  if strTruthy d then some (strLower d) else none

/-- PMID carried by the `extra` field of a library item: when `extra` is
truthy, the capture of `re.search(r"PMID:\s*(\d+)", extra, re.IGNORECASE)`. -/
def pmidOfItem (it : LibItem) : Option String :=
  let ex := it.extra.getD ""
  if strTruthy ex then
    (searchCapture "pmid:".data Char.isDigit ex.data).map String.mk
  else none

/-- DOI pass of the per-item scan of `batch_check_identifiers`: record the
item DOI when it is queried. -/
def scanDoiPart (doisQ : List String) (acc : CheckResult) (it : LibItem) :
    CheckResult :=
  match doiKeyOf it with
  | some dl =>
    if dl ∈ doisQ then
      { acc with existing_dois := setInsert acc.existing_dois dl
                 doi_to_key := dictInsert acc.doi_to_key dl it.key }
    else acc
  | none => acc

/-- PMID pass of the per-item scan: record the PMID found in the `extra`
field when it is queried. -/
def scanPmidPart (pmidsQ : List String) (acc : CheckResult) (it : LibItem) :
    CheckResult :=
  match pmidOfItem it with
  | some p =>
    if p ∈ pmidsQ then
      { acc with existing_pmids := setInsert acc.existing_pmids p
                 pmid_to_key := dictInsert acc.pmid_to_key p it.key }
    else acc
  | none => acc

/-- Scan of one library item in `batch_check_identifiers`: the DOI check
followed by the PMID check. `pmidsQ` is the queried PMID set and `doisQ`
the queried DOI set (already lower-cased). -/
def scanItem (pmidsQ doisQ : List String) (acc : CheckResult) (it : LibItem) :
    CheckResult :=
  scanPmidPart pmidsQ (scanDoiPart doisQ acc it) it

/-- Paged item fetch of `batch_check_identifiers`: `get_items(limit=100,
start)` pages (modelled as slices of the library snapshot) are collected
until a page comes back empty or short, or until the offset would exceed
the safety limit of 5000 after advancing by the batch size. -/
def pageLoopFrom (lib : List LibItem) (start : Nat) : List LibItem :=
  let items := (lib.drop start).take 100
  if items = [] then []
  else if items.length < 100 then items
  else if 5000 < start + 100 then items
  else items ++ pageLoopFrom lib (start + 100)
termination_by 5100 - start
decreasing_by
  simp_wf
  omega

/-- Embedding of `ZoteroClient.batch_check_identifiers` (`client.py`):
queried DOIs are lower-cased up front, the paged snapshot is scanned item
by item. -/
def batch_check_identifiers (lib : List LibItem) (pmids dois : List String) :
    CheckResult :=
  (pageLoopFrom lib 0).foldl (scanItem pmids (dois.map strLower)) {}

/-- Embedding of `ImportAction` (`batch_result.py`). -/
inductive ImportAction
  | added
  | skipped
  | warning
  | failed
deriving DecidableEq, Repr

/-- Embedding of `ImportedItem` (`batch_result.py`). -/
structure ImportedItem where
  pmid : String
  title : String
  action : ImportAction
  zotero_key : Option String := none
  reason : Option String := none
  warning : Option String := none
  error : Option String := none
deriving DecidableEq, Repr

/-- Embedding of `BatchImportResult` (`batch_result.py`). Wall-clock
fields (`timestamp`, `elapsed_time`) and the constant source fields are
carried as opaque display strings; they play no part in the counters. -/
structure BatchImportResult where
  success : Bool := true
  total : Nat := 0
  added : Nat := 0
  skipped : Nat := 0
  warnings : Nat := 0
  failed : Nat := 0
  added_items : List ImportedItem := []
  skipped_items : List ImportedItem := []
  warning_items : List ImportedItem := []
  failed_items : List ImportedItem := []
  collection_key : Option String := none
  collection_name : Option String := none
  target_library : String := "My Library"
  timestamp : String := ""
  elapsed_display : String := ""
  data_source : String := "PubMed API"
deriving DecidableEq, Repr, Inhabited

/-- Embedding of `BatchImportResult.add_item`: bump `total`, then route
the item by its action; a failed item also clears the overall success
flag. -/
def add_item (r : BatchImportResult) (it : ImportedItem) : BatchImportResult :=
  let r := { r with total := r.total + 1 }
  match it.action with
  | .added => { r with added := r.added + 1, added_items := r.added_items ++ [it] }
  | .skipped => { r with skipped := r.skipped + 1, skipped_items := r.skipped_items ++ [it] }
  | .warning => { r with warnings := r.warnings + 1, warning_items := r.warning_items ++ [it] }
  | .failed => { r with failed := r.failed + 1, failed_items := r.failed_items ++ [it],
                        success := false }

/-- Sum of the four outcome counters of a report. -/
def sumCounts (r : BatchImportResult) : Nat :=
  r.added + r.skipped + r.warnings + r.failed

/-- Separator line of the report, `"=" * 60` in the source. -/
def sepLine : String := String.mk (List.replicate 60 '=')

/-- Warning block emitted by `_generate_report` when no collection key is
recorded (quotes of the source text omitted). -/
def noCollectionWarning : List String :=
  ["", "⚠️  WARNING: No collection specified!",
   "   Items were added to My Library root, not a collection.",
   "   Use collection_key parameter to specify target collection."]

/-- Embedding of `BatchImportResult._generate_report` as its list of
lines: header, target, statistics, capped failed and skipped blocks, and
the missing-collection warning exactly when `collection_key` is falsy. -/
def report_lines (r : BatchImportResult) : List String :=
  [sepLine,
   "📊 BATCH IMPORT REPORT",
   sepLine,
   "⏰ Timestamp: " ++ r.timestamp,
   "📡 Data Source: " ++ r.data_source,
   "⏱️  Elapsed Time: " ++ r.elapsed_display,
   "",
   "📍 TARGET:",
   "   Library: " ++ r.target_library,
   "   Collection: " ++ (if strTruthyO r.collection_name then r.collection_name.getD ""
                         else "(none)") ++
     " [" ++ (if strTruthyO r.collection_key then r.collection_key.getD "" else "root") ++ "]",
   "",
   "📈 STATISTICS:",
   "   Total Processed: " ++ toString r.total,
   "   ✅ Added: " ++ toString r.added,
   "   ⏭️  Skipped: " ++ toString r.skipped,
   "   ⚠️  Warnings: " ++ toString r.warnings,
   "   ❌ Failed: " ++ toString r.failed] ++
  (if 0 < r.failed then
    ["", "❌ FAILED ITEMS:"] ++
    (r.failed_items.take 10).map (fun it =>
      "   - PMID " ++ it.pmid ++ ": " ++
        (if strTruthyO it.error then it.error.getD "" else "Unknown error")) ++
    (if 10 < r.failed_items.length then
      ["   ... and " ++ toString (r.failed_items.length - 10) ++ " more"] else [])
  else []) ++
  (if 0 < r.skipped then
    ["", "⏭️  SKIPPED ITEMS (first 5):"] ++
    (r.skipped_items.take 5).map (fun it =>
      "   - PMID " ++ it.pmid ++ ": " ++
        (if strTruthyO it.reason then it.reason.getD "" else "Already exists")) ++
    (if 5 < r.skipped_items.length then
      ["   ... and " ++ toString (r.skipped_items.length - 5) ++ " more"] else [])
  else []) ++
  (if strTruthyO r.collection_key then [] else noCollectionWarning) ++
  ["", sepLine]

/-- Rendered human-readable report, joined exactly as the source joins its
lines; `BatchImportResult.to_dict` includes this string unconditionally
under the `report` key, for successful and failed batches alike. -/
def generate_report (r : BatchImportResult) : String :=
  String.intercalate "\n" (report_lines r)

/-- Collection snapshot entry (`list_collections` result) as read by the
collection validation of `batch_tools.py`: its `key` and `name` fields. -/
structure Col where
  key : String
  name : String
deriving DecidableEq, Repr

/-- Validated destination recorded by a successful resolution. -/
structure CollectionInfo where
  key : String
  name : String
deriving DecidableEq, Repr

/-- Similar-name suggestions on a failed name lookup: the first five
snapshot names that contain the attempted name case-insensitively
(`[c.get("name") for c in collections if name.lower() in
c.get("name", "").lower()][:5]`). -/
def similarNames (collections : List Col) (nm : String) : List String :=
  ((collections.filter (fun c => containsCI c.name nm)).map (fun c => c.name)).take 5

/-- Outcome of the collection-validation block of
`batch_import_from_pubmed`: either a structured failure (error text,
similar-name suggestions when a name lookup produced any, and the
available snapshot capped at 10 entries) or the optional validated
destination. -/
inductive ResolveOutcome
  | failure (error : String) (similar : Option (List String)) (available : List Col)
  | ok (validated : Option CollectionInfo)
deriving DecidableEq, Repr

/-- Body of the `try` block of the collection validation
(`batch_tools.py` lines 159-209), given a fetched collections snapshot: a
supplied name (without a key) is matched case-insensitively and exactly
against snapshot names; a supplied key is matched exactly against snapshot
keys. A failed name lookup carries similar-name suggestions in its hint; a
failed key lookup carries only the static hint. No branch creates a
collection. Error texts are the source messages with their quote
characters omitted. In the wired program this body is unreachable — see
`list_collections_call`. -/
def validateCollection (collections : List Col)
    (collection_name collection_key : Option String) : ResolveOutcome :=
  if strTruthyO collection_name && !strTruthyO collection_key then
    let nm := collection_name.getD ""
    match collections.find? (fun c => strLower c.name = strLower nm) with
    | some found => .ok (some ⟨found.key, found.name⟩)
    | none =>
      let sim := similarNames collections nm
      .failure ("Collection " ++ nm ++ " not found")
        (if sim = [] then none else some sim) (collections.take 10)
  else
    let ky := collection_key.getD ""
    match collections.find? (fun c => c.key = ky) with
    | some found => .ok (some ⟨ky, found.name⟩)
    | none =>
      .failure ("Collection key " ++ ky ++ " not found") none (collections.take 10)

/-- The snapshot fetch of both validation branches:
`await zotero_client.list_collections()` (`batch_tools.py` lines 161 and
188). The injected client is `ZoteroClient` (constructed in `server.py`
and passed to `register_batch_tools`), which defines `get_collections` but
no `list_collections` and no attribute fallback, so the attribute access
raises `AttributeError` before any snapshot is fetched. The `collections`
argument stands for the snapshot the reference manager would have
reported; the call never returns it. -/
def list_collections_call (collections : List Col) : Except String (List Col) :=
  .error "AttributeError: ZoteroClient object has no attribute list_collections"

/-- Embedding of the collection-validation block (`batch_tools.py` lines
157-220, `防呆機制 1`) as wired: when a name or key is supplied, the
snapshot fetch raises and the handler at lines 211-220 swallows the
exception — a supplied key is then used unvalidated (with name
`"unknown (validation failed)"`), while a supplied name alone leaves the
destination unresolved; with neither supplied, validation is skipped. The
lookup body (`validateCollection`) is retained as the dead `try` branch. -/
def resolveCollection (collections : List Col)
    (collection_name collection_key : Option String) : ResolveOutcome :=
  if strTruthyO collection_name || strTruthyO collection_key then
    match list_collections_call collections with
    | .ok fetched => validateCollection fetched collection_name collection_key
    | .error _ =>
      if strTruthyO collection_key then
        .ok (some ⟨collection_key.getD "", "unknown (validation failed)"⟩)
      else .ok none
  else .ok none

/-- The per-record mapper invocation of `batch_tools.py`:
`map_pubmed_to_zotero(article, extra_tags=tags, collection_keys=collection_keys)`.
The mapper defined in `pubmed_mapper.py` accepts only `(article,
extra_tags=None)`, so the keyword argument `collection_keys` — passed on
every call, even as `None` — makes Python raise `TypeError` before the
mapper body runs; the orchestrator catches it as a per-record mapping
error. -/
def mapperCall (a : Article) (tags : Option (List String))
    (collection_keys : Option (List String)) :
    Except String (List (String × ZVal)) :=
  .error "TypeError: map_pubmed_to_zotero() got an unexpected keyword argument collection_keys"

/-- The `collection_keys` argument built by the orchestrator:
`[validated_collection_key] if validated_collection_key else None`. -/
def collectionKeysArg (validated : Option CollectionInfo) : Option (List String) :=
  match validated with
  | some ci => if strTruthy ci.key then some [ci.key] else none
  | none => none

/-- DOI list extracted from the fetched articles for the duplicate check:
`[a.get("doi", "").lower() for a in articles if a.get("doi")]`. -/
def articleDois (articles : List Article) : List String :=
  articles.filterMap (fun a =>
    if strTruthyO a.doi then some (strLower (a.doi.getD "")) else none)

/-- Duplicate-check data used by the loop: the batch check when
`skip_duplicates` is set, empty otherwise. -/
def checkOf (skip_duplicates : Bool) (lib : List LibItem)
    (pmid_list : List String) (articles : List Article) : CheckResult :=
  if skip_duplicates then batch_check_identifiers lib pmid_list (articleDois articles)
  else {}

/-- Final bookkeeping of the orchestrator: record the validated collection
key on the result when it is truthy. -/
def applyCollectionKey (validated : Option CollectionInfo)
    (r : BatchImportResult) : BatchImportResult :=
  match validated with
  | some ci => if strTruthy ci.key then { r with collection_key := some ci.key } else r
  | none => r

/-- Result of a batch run: an aborting structured failure from collection
validation, an aborting input error, or the accumulated report. -/
inductive BatchOut
  | resolveFailure (error : String) (similar : Option (List String)) (available : List Col)
  | inputError (error : String)
  | report (r : BatchImportResult)
deriving DecidableEq, Repr, Inhabited

/-- Per-record step of the orchestrator loop: skip a queried duplicate
(PMID first, then a truthy DOI), otherwise call the mapper, buffering a
mapped item and recording a mapping failure otherwise. The accumulator is
the report under construction and the write buffer of
`(pmid, title, item)` triples. -/
def recordStep (skip_duplicates : Bool) (check : CheckResult)
    (tags : Option (List String)) (ck : Option (List String))
    (acc : BatchImportResult × List (String × String × List (String × ZVal)))
    (a : Article) :
    BatchImportResult × List (String × String × List (String × ZVal)) :=
  let res := acc.1
  let buf := acc.2
  let pmid := a.pmid.getD ""
  let title := String.mk ((a.title.getD "Unknown").data.take 100)
  let doi := strLower (a.doi.getD "")
  if skip_duplicates && decide (pmid ∈ check.existing_pmids) then
    (add_item res
      { pmid := pmid, title := title, action := .skipped,
        reason := some ("PMID already exists (key: " ++
          dictGetD check.pmid_to_key pmid "unknown" ++ ")") }, buf)
  else if skip_duplicates && strTruthy doi && decide (doi ∈ check.existing_dois) then
    (add_item res
      { pmid := pmid, title := title, action := .skipped,
        reason := some ("DOI already exists (key: " ++
          dictGetD check.doi_to_key doi "unknown" ++ ")") }, buf)
  else
    match mapperCall a tags ck with
    | .ok zi => (res, buf ++ [(pmid, title, zi)])
    | .error e =>
      (add_item res
        { pmid := pmid, title := title, action := .failed,
          error := some ("Mapping error: " ++ e) }, buf)

/-- Embedding of the core of `batch_import_from_pubmed` (`batch_tools.py`),
from collection validation onward. Network effects are inputs: `pmid_list`
is the parsed PMID list, `articles` the fetched article dictionaries
(citation-metric enrichment, which only annotates them, is taken as
already applied), `lib` the library snapshot read by the duplicate check,
and `writeResult` the behaviour of the single `batch_save_items` call.
The boolean of the returned pair records whether that external write call
was issued. On a write failure every buffered record is marked failed
with the write error; on success every buffered record is marked added. -/
def batch_import_from_pubmed (collections : List Col)
    (collection_name collection_key : Option String)
    (pmid_list : List String) (articles : List Article)
    (tags : Option (List String)) (skip_duplicates : Bool)
    (lib : List LibItem) (writeResult : Except String Unit) :
    BatchOut × Bool :=
  match resolveCollection collections collection_name collection_key with
  | .failure e s avail => (.resolveFailure e s avail, false)
  | .ok validated =>
    if pmid_list = [] then (.inputError "No valid PMIDs provided", false)
    else if articles = [] then (.inputError "No articles found for provided PMIDs", false)
    else
      let check := checkOf skip_duplicates lib pmid_list articles
      let ck := collectionKeysArg validated
      let step := articles.foldl (recordStep skip_duplicates check tags ck) ({}, [])
      let res := step.1
      let buf := step.2
      let written :=
        if buf ≠ [] then
          match writeResult with
          | .ok _ =>
            (buf.foldl (fun r t => add_item r
              { pmid := t.1, title := t.2.1, action := .added, zotero_key := none }) res,
             true)
          | .error e =>
            (buf.foldl (fun r t => add_item r
              { pmid := t.1, title := t.2.1, action := .failed,
                error := some ("Save error: " ++ e) }) res,
             true)
        else (res, false)
      (.report (applyCollectionKey validated written.1), written.2)

/-- Item passed to the Collection Suggester: its title and tag strings. -/
structure SuggestItem where
  title : String
  tags : List String
deriving DecidableEq, Repr

/-- One suggestion of the Collection Suggester. -/
structure Suggestion where
  key : String
  name : String
  score : Nat
  reason : String
deriving DecidableEq, Repr

/-- Modelled from the spec: `_suggest_collections` is imported from
`smart_tools` by `interactive_tools.py` and `collection_utils.py` but its
definition is absent from the source tree; its per-collection heuristics
follow spec §4.4. First match wins for a collection: (1) the collection
display name appears verbatim as a substring of the item normalized
title, score 90, reason "name in title"; (2) partial similarity between
the collection name and some title word longer than 3 characters exceeds
50, score that similarity, reason "keyword match"; (3) similarity between
the collection name and some item tag exceeds 70, score that similarity,
reason "tag match". The similarity oracles `psim`/`sim` stand for the
rapidfuzz scorers. -/
def scoreCollection (psim sim : String → String → Nat) (item : SuggestItem)
    (c : Col) : Option Suggestion :=
  let nt := normalize_title item.title
  if containsChars c.name.data nt.data then
    some ⟨c.key, c.name, 90, "name in title"⟩
  else
    match (nt.splitOn " ").find? (fun w => 3 < w.length && 50 < psim c.name w) with
    | some w => some ⟨c.key, c.name, psim c.name w, "keyword match"⟩
    | none =>
      match item.tags.find? (fun t => 70 < sim c.name t) with
      | some t => some ⟨c.key, c.name, sim c.name t, "tag match"⟩
      | none => none

/-- Drop suggestions whose collection id was already seen, keeping the
first (after the descending sort: highest-scoring) occurrence. -/
def dedupKeys : List Suggestion → List String → List Suggestion
  | [], _ => []
  | e :: es, seen =>
    if e.key ∈ seen then dedupKeys es seen
    else e :: dedupKeys es (e.key :: seen)

/-- Modelled from the spec: the Collection Suggester pipeline — score
every snapshot collection, sort descending by score (stably), deduplicate
by collection id keeping the first occurrence, cap at five. -/
def suggest (psim sim : String → String → Nat) (item : SuggestItem)
    (collections : List Col) : List Suggestion :=
  (dedupKeys (sortDescBy Suggestion.score
    (collections.filterMap (scoreCollection psim sim item))) []).take 5

/-- Report of a batch outcome (the default report for aborting outcomes,
which carry none). -/
def reportOf (o : BatchOut × Bool) : BatchImportResult :=
  match o.1 with
  | .report r => r
  | _ => {}

/-- A clean new PubMed record: present in no library snapshot. -/
def c1article : Article := { pmid := some "38353755", title := some "Clean record" }

/-- Batch run of the single clean record with a destination name (present
in the would-be snapshot) and an extra tag. -/
def c1run : BatchOut × Bool :=
  batch_import_from_pubmed [⟨"CK", "Neuro"⟩] (some "Neuro") none
    ["38353755"] [c1article] (some ["t1"]) true [] (.ok ())

/-- Two fetched articles for a plain run. -/
def c2articles : List Article :=
  [{ pmid := some "1", title := some "A" }, { pmid := some "2", title := some "B" }]

/-- Batch run of two records with duplicate skipping disabled. -/
def c2run : BatchOut × Bool :=
  batch_import_from_pubmed [] none none ["1", "2"] c2articles none false [] (.ok ())

/-- Stored item carrying the DOI of the candidate below. -/
def exA : SItem := { key := some "KA", dataTitle := some "Existing A", doi := some "10.1/a" }

/-- Stored item carrying the ISBN of the candidate below. -/
def exB : SItem := { key := some "KB", dataTitle := some "Existing B", isbn := some "111" }

/-- Candidate whose DOI and ISBN both match stored items. -/
def cand4 : SItem := { title := some "Some Title", doi := some "10.1/a", isbn := some "111" }

/-- Client whose identifier searches surface `exA` and `exB`. -/
def cl4 : SmartClient :=
  { searchItems := fun q => if q = "10.1/a" then [exA] else if q = "111" then [exB] else []
    getItems := fun _ => []
    scorer := fun _ _ => 0 }

/-- Stored item carrying the DOI `10.1/x`. -/
def ex5 : SItem := { key := some "K5", dataTitle := some "Old", doi := some "10.1/x" }

/-- Candidate with a blank title and a DOI matching `ex5`. -/
def cand5 : SItem := { title := some "", doi := some "10.1/x" }

/-- Candidate with a usable title and a DOI matching `ex5`. -/
def cand5w : SItem := { title := some "New Paper", doi := some "10.1/x" }

/-- Client whose DOI search surfaces `ex5`. -/
def cl5 : SmartClient :=
  { searchItems := fun q => if q = "10.1/x" then [ex5] else []
    getItems := fun _ => []
    scorer := fun _ _ => 0 }

/-- Five otherwise-valid fetched records. -/
def c6articles : List Article :=
  [{ pmid := some "1", title := some "P1" }, { pmid := some "2", title := some "P2" },
   { pmid := some "3", title := some "P3" }, { pmid := some "4", title := some "P4" },
   { pmid := some "5", title := some "P5" }]

/-- Batch run of the five records with the external write call set up to
raise. -/
def c6run : BatchOut × Bool :=
  batch_import_from_pubmed [] none none ["1", "2", "3", "4", "5"] c6articles none true []
    (.error "Simulated write failure")

/-- Batch run with no destination collection and a raising write call. -/
def c9run : BatchOut × Bool :=
  batch_import_from_pubmed [] none none ["1"] [{ pmid := some "1", title := some "P1" }]
    none false [] (.error "boom")

/-- Library item matching nothing. -/
def blankItem : LibItem := {}

/-- Library item whose `extra` field carries PMID 42. -/
def item42 : LibItem := { extra := some "PMID: 42", key := "KEY42" }

/-- Snapshot whose only item matching PMID 42 sits at index 5100, just
beyond the paging window of the duplicate check. -/
def bigLib : List LibItem := List.replicate 5100 blankItem ++ [item42]

/-- Fetched record whose PMID matches only the beyond-window item. -/
def article42 : Article := { pmid := some "42", title := some "Beyond Window" }

/-- Batch run of that record against the large snapshot. -/
def c10run : BatchOut × Bool :=
  batch_import_from_pubmed [] none none ["42"] [article42] none true bigLib (.ok ())

/-- Fetched record whose PMID matches nothing in the snapshot. -/
def article7 : Article := { pmid := some "7", title := some "T7" }

/-- Batch run of that record against a one-item snapshot. -/
def w10run : BatchOut × Bool :=
  batch_import_from_pubmed [] none none ["7"] [article7] none true [item42] (.ok ())

/-- Similarity oracle assigning score zero everywhere. -/
def zeroSim : String → String → Nat := fun _ _ => 0

/-- Item whose normalized title contains the collection name below. -/
def sugItem : SuggestItem := { title := "Deep Learning Methods", tags := [] }

/-- One-collection snapshot for the suggester. -/
def sugCols : List Col := [{ key := "k1", name := "deep learning" }]

/-- One-collection snapshot without the attempted names below. -/
def c3cols : List Col := [{ key := "K1", name := "Neurology" }]

/-- Batch run with an unknown destination name against the wired client. -/
def c3run : BatchOut × Bool :=
  batch_import_from_pubmed c3cols (some "Does Not Exist") none ["1"]
    [{ pmid := some "1", title := some "T" }] none true [] (.ok ())

/-- Closed form of the paged fetch: starting at a multiple of 100 with
`100 * (n + 1)` positions left before the 5100 cap, it collects exactly
the next `100 * (n + 1)` items of the snapshot. -/
theorem pageLoopFrom_spec : ∀ (n : Nat) (lib : List LibItem) (start : Nat),
    start + 100 * (n + 1) = 5100 →
    pageLoopFrom lib start = (lib.drop start).take (100 * (n + 1)) := by
  intro n
  induction n with
  | zero =>
    intro lib start h
    have hs : start = 5000 := by omega
    subst hs
    rw [pageLoopFrom]
    have hone : 100 * (0 + 1) = 100 := by norm_num
    rw [hone]
    by_cases h1 : (lib.drop 5000).take 100 = []
    · rw [if_pos h1, h1]
    · rw [if_neg h1]
      by_cases h2 : ((lib.drop 5000).take 100).length < 100
      · rw [if_pos h2]
      · rw [if_neg h2, if_pos (by norm_num : (5000 : Nat) < 5000 + 100)]
  | succ k ih =>
    intro lib start h
    have hguard : ¬(5000 < start + 100) := by omega
    rw [pageLoopFrom]
    by_cases h1 : (lib.drop start).take 100 = []
    · have hnil : lib.drop start = [] := by
        rcases List.take_eq_nil_iff.mp h1 with h' | h'
        · exact absurd h' (by norm_num)
        · exact h'
      rw [if_pos h1, hnil, List.take_nil]
    · rw [if_neg h1]
      by_cases h2 : ((lib.drop start).take 100).length < 100
      · have hlen : (lib.drop start).length < 100 := by
          have := List.length_take 100 (lib.drop start)
          omega
        have hall : (lib.drop start).take 100 = lib.drop start :=
          List.take_of_length_le (le_of_lt hlen)
        have hall2 : (lib.drop start).take (100 * (k + 1 + 1)) = lib.drop start :=
          List.take_of_length_le (by nlinarith)
        rw [if_pos h2, hall, hall2]
      · have hrec := ih lib (start + 100) (by omega)
        have hdd : lib.drop (start + 100) = (lib.drop start).drop 100 := by
          rw [List.drop_drop]
        have hsplit : (lib.drop start).take (100 * (k + 1 + 1)) =
            (lib.drop start).take 100 ++ ((lib.drop start).drop 100).take (100 * (k + 1)) := by
          rw [← List.take_add]
          ring_nf
        rw [if_neg h2, if_neg hguard, hrec, hdd, hsplit]

/-- The paged fetch of `batch_check_identifiers` examines exactly the
first 5100 items of the snapshot. -/
theorem pageLoopFrom_take (lib : List LibItem) :
    pageLoopFrom lib 0 = lib.take 5100 := by
  have h := pageLoopFrom_spec 50 lib 0 (by norm_num)
  simpa using h

/-- The duplicate check is the scan of the first 5100 snapshot items. -/
theorem batch_check_eq (lib : List LibItem) (pmids dois : List String) :
    batch_check_identifiers lib pmids dois =
      (lib.take 5100).foldl (scanItem pmids (dois.map strLower)) {} := by
  rw [batch_check_identifiers, pageLoopFrom_take]

/-- Duplicate check over an empty snapshot. -/
theorem batch_check_nil (pmids dois : List String) :
    batch_check_identifiers [] pmids dois = {} := by
  rw [batch_check_eq]
  rfl

/-- Every `add_item` call bumps `total` by exactly one. -/
theorem add_item_total (r : BatchImportResult) (it : ImportedItem) :
    (add_item r it).total = r.total + 1 := by
  cases h : it.action <;> simp [add_item, h]

/-- Every `add_item` call bumps exactly one of the four counters. -/
theorem add_item_sum (r : BatchImportResult) (it : ImportedItem) :
    sumCounts (add_item r it) = sumCounts r + 1 := by
  cases h : it.action <;> simp [add_item, h, sumCounts] <;> omega

/-- Every per-record step of the orchestrator records exactly one outcome
via `add_item` and leaves the write buffer unchanged: the skip branches do
so directly, and the mapper branch does so because the keyword-argument
`TypeError` of `mapperCall` turns every mapping attempt into a failed
outcome. -/
theorem recordStep_eq_add (sk : Bool) (check : CheckResult)
    (tags : Option (List String)) (ck : Option (List String))
    (acc : BatchImportResult × List (String × String × List (String × ZVal)))
    (a : Article) :
    ∃ it, recordStep sk check tags ck acc a = (add_item acc.1 it, acc.2) := by
  rw [recordStep]
  by_cases h1 : sk && decide ((a.pmid.getD "") ∈ check.existing_pmids)
  · rw [if_pos h1]
    exact ⟨_, rfl⟩
  · rw [if_neg h1]
    by_cases h2 : sk && strTruthy (strLower (a.doi.getD "")) &&
        decide (strLower (a.doi.getD "") ∈ check.existing_dois)
    · rw [if_pos h2]
      exact ⟨_, rfl⟩
    · rw [if_neg h2]
      exact ⟨_, rfl⟩

/-- Folding the per-record step over any article list keeps the write
buffer unchanged and increments `total` and the counter sum once per
article. -/
theorem recordStep_fold (sk : Bool) (check : CheckResult)
    (tags : Option (List String)) (ck : Option (List String)) :
    ∀ (l : List Article)
      (acc : BatchImportResult × List (String × String × List (String × ZVal))),
      (l.foldl (recordStep sk check tags ck) acc).2 = acc.2 ∧
      (l.foldl (recordStep sk check tags ck) acc).1.total = acc.1.total + l.length ∧
      sumCounts (l.foldl (recordStep sk check tags ck) acc).1 =
        sumCounts acc.1 + l.length := by
  intro l
  induction l with
  | nil => intro acc; simp
  | cons a rest ih =>
    intro acc
    obtain ⟨it, hit⟩ := recordStep_eq_add sk check tags ck acc a
    rw [List.foldl_cons, hit]
    obtain ⟨hb, ht, hs⟩ := ih (add_item acc.1 it, acc.2)
    refine ⟨hb, ?_, ?_⟩
    · rw [ht, add_item_total]
      simp
      omega
    · rw [hs, add_item_sum]
      simp
      omega

/-- Shape of every batch run that passes validation with non-empty
inputs: because the write buffer stays empty (every mapping attempt fails
on the keyword-argument `TypeError`), the external write call is never
issued and the report is the fold of the per-record step. -/
theorem batch_import_run (collections : List Col)
    (collection_name collection_key : Option String)
    (pmid_list : List String) (articles : List Article)
    (tags : Option (List String)) (skip_duplicates : Bool)
    (lib : List LibItem) (writeResult : Except String Unit)
    (validated : Option CollectionInfo)
    (hres : resolveCollection collections collection_name collection_key = .ok validated)
    (hp : pmid_list ≠ []) (ha : articles ≠ []) :
    batch_import_from_pubmed collections collection_name collection_key
        pmid_list articles tags skip_duplicates lib writeResult =
      (.report (applyCollectionKey validated
        (articles.foldl
          (recordStep skip_duplicates
            (checkOf skip_duplicates lib pmid_list articles)
            tags (collectionKeysArg validated)) ({}, [])).1), false) := by
  rw [batch_import_from_pubmed, hres]
  have hbuf := (recordStep_fold skip_duplicates
    (checkOf skip_duplicates lib pmid_list articles) tags
    (collectionKeysArg validated) articles ({}, [])).1
  simp only [if_neg hp, if_neg ha, hbuf, ne_eq, not_true_eq_false, if_false,
    ite_false, not_not]

/-- `add_item` never touches the recorded collection key. -/
theorem add_item_ck (r : BatchImportResult) (it : ImportedItem) :
    (add_item r it).collection_key = r.collection_key := by
  cases h : it.action <;> simp [add_item, h]

/-- Recording the validated collection key changes no counter, no outcome
list and not the success flag. -/
theorem applyCollectionKey_fields (v : Option CollectionInfo) (r : BatchImportResult) :
    (applyCollectionKey v r).total = r.total ∧
    (applyCollectionKey v r).added = r.added ∧
    (applyCollectionKey v r).skipped = r.skipped ∧
    (applyCollectionKey v r).warnings = r.warnings ∧
    (applyCollectionKey v r).failed = r.failed ∧
    (applyCollectionKey v r).success = r.success ∧
    (applyCollectionKey v r).failed_items = r.failed_items := by
  cases v with
  | none => simp [applyCollectionKey]
  | some ci => by_cases h : strTruthy ci.key <;> simp [applyCollectionKey, h]

/-- With no validated destination the report is returned unchanged. -/
theorem applyCollectionKey_none (r : BatchImportResult) :
    applyCollectionKey none r = r := rfl

/-- Membership after set insertion. -/
theorem mem_setInsert (s : List String) (x y : String) :
    y ∈ setInsert s x → y ∈ s ∨ y = x := by
  rw [setInsert]
  split
  · exact fun h => Or.inl h
  · intro h
    rcases List.mem_append.mp h with h' | h'
    · exact Or.inl h'
    · simp at h'
      exact Or.inr h'

/-- The DOI pass never touches the PMID set. -/
theorem scanDoiPart_pmids (dq : List String) (acc : CheckResult) (it : LibItem) :
    (scanDoiPart dq acc it).existing_pmids = acc.existing_pmids := by
  rw [scanDoiPart]
  split
  · split <;> rfl
  · rfl

/-- The PMID pass never touches the DOI set. -/
theorem scanPmidPart_dois (pq : List String) (acc : CheckResult) (it : LibItem) :
    (scanPmidPart pq acc it).existing_dois = acc.existing_dois := by
  rw [scanPmidPart]
  split
  · split <;> rfl
  · rfl

/-- A PMID reported by the PMID pass was already reported or is carried by
the scanned item. -/
theorem scanPmidPart_sound (pq : List String) (acc : CheckResult) (it : LibItem)
    (p : String) :
    p ∈ (scanPmidPart pq acc it).existing_pmids →
    p ∈ acc.existing_pmids ∨ pmidOfItem it = some p := by
  rw [scanPmidPart]
  split
  · rename_i q heq
    split
    · intro h
      simp only at h
      rcases mem_setInsert _ _ _ h with h' | h'
      · exact Or.inl h'
      · subst h'
        exact Or.inr heq
    · exact fun h => Or.inl h
  · exact fun h => Or.inl h

/-- A DOI reported by the DOI pass was already reported or is carried by
the scanned item. -/
theorem scanDoiPart_sound (dq : List String) (acc : CheckResult) (it : LibItem)
    (d : String) :
    d ∈ (scanDoiPart dq acc it).existing_dois →
    d ∈ acc.existing_dois ∨ doiKeyOf it = some d := by
  rw [scanDoiPart]
  split
  · rename_i dl heq
    split
    · intro h
      simp only at h
      rcases mem_setInsert _ _ _ h with h' | h'
      · exact Or.inl h'
      · subst h'
        exact Or.inr heq
    · exact fun h => Or.inl h
  · exact fun h => Or.inl h

/-- A PMID reported by one scan step was already reported or is carried by
the scanned item. -/
theorem scanItem_pmid_sound (pq dq : List String) (acc : CheckResult) (it : LibItem)
    (p : String) :
    p ∈ (scanItem pq dq acc it).existing_pmids →
    p ∈ acc.existing_pmids ∨ pmidOfItem it = some p := by
  intro h
  rcases scanPmidPart_sound pq (scanDoiPart dq acc it) it p h with h' | h'
  · rw [scanDoiPart_pmids] at h'
    exact Or.inl h'
  · exact Or.inr h'

/-- A DOI reported by one scan step was already reported or is carried by
the scanned item. -/
theorem scanItem_doi_sound (pq dq : List String) (acc : CheckResult) (it : LibItem)
    (d : String) :
    d ∈ (scanItem pq dq acc it).existing_dois →
    d ∈ acc.existing_dois ∨ doiKeyOf it = some d := by
  intro h
  rw [scanItem, scanPmidPart_dois] at h
  exact scanDoiPart_sound dq acc it d h

/-- A PMID reported by the scan of an item list was already reported or is
carried by one of the scanned items. -/
theorem scan_fold_pmid_sound (pq dq : List String) :
    ∀ (items : List LibItem) (acc : CheckResult) (p : String),
      p ∈ (items.foldl (scanItem pq dq) acc).existing_pmids →
      p ∈ acc.existing_pmids ∨ ∃ it ∈ items, pmidOfItem it = some p := by
  intro items
  induction items with
  | nil => intro acc p h; exact Or.inl h
  | cons it rest ih =>
    intro acc p h
    rw [List.foldl_cons] at h
    rcases ih (scanItem pq dq acc it) p h with h' | h'
    · rcases scanItem_pmid_sound pq dq acc it p h' with h'' | h''
      · exact Or.inl h''
      · exact Or.inr ⟨it, List.mem_cons_self it rest, h''⟩
    · rcases h' with ⟨it', hmem, hpm⟩
      exact Or.inr ⟨it', List.mem_cons_of_mem it hmem, hpm⟩

/-- A DOI reported by the scan of an item list was already reported or is
carried by one of the scanned items. -/
theorem scan_fold_doi_sound (pq dq : List String) :
    ∀ (items : List LibItem) (acc : CheckResult) (d : String),
      d ∈ (items.foldl (scanItem pq dq) acc).existing_dois →
      d ∈ acc.existing_dois ∨ ∃ it ∈ items, doiKeyOf it = some d := by
  intro items
  induction items with
  | nil => intro acc d h; exact Or.inl h
  | cons it rest ih =>
    intro acc d h
    rw [List.foldl_cons] at h
    rcases ih (scanItem pq dq acc it) d h with h' | h'
    · rcases scanItem_doi_sound pq dq acc it d h' with h'' | h''
      · exact Or.inl h''
      · exact Or.inr ⟨it, List.mem_cons_self it rest, h''⟩
    · rcases h' with ⟨it', hmem, hpm⟩
      exact Or.inr ⟨it', List.mem_cons_of_mem it hmem, hpm⟩

/-- Scanning a run of blank items reports nothing new. -/
theorem foldl_scan_replicate (pq dq : List String) :
    ∀ (n : Nat) (acc : CheckResult),
      (List.replicate n blankItem).foldl (scanItem pq dq) acc = acc := by
  intro n
  induction n with
  | zero => intro acc; rfl
  | succ k ih =>
    intro acc
    rw [List.replicate_succ, List.foldl_cons]
    rw [show scanItem pq dq acc blankItem = acc from rfl]
    exact ih acc

/-- Membership after a descending insertion. -/
theorem mem_insertDescBy (score : α → Nat) (x : α) :
    ∀ (l : List α) (z : α), z ∈ insertDescBy score x l ↔ z = x ∨ z ∈ l := by
  intro l
  induction l with
  | nil => intro z; simp [insertDescBy]
  | cons y ys ih =>
    intro z
    rw [insertDescBy]
    split
    · simp [or_comm, or_assoc, or_left_comm]
    · simp only [List.mem_cons, ih z]
      tauto

/-- Descending insertion preserves descending sortedness. -/
theorem sorted_insertDescBy (score : α → Nat) (x : α) :
    ∀ (l : List α), l.Pairwise (fun a b => score b ≤ score a) →
      (insertDescBy score x l).Pairwise (fun a b => score b ≤ score a) := by
  intro l
  induction l with
  | nil => intro _; simp [insertDescBy]
  | cons y ys ih =>
    intro hp
    rw [List.pairwise_cons] at hp
    rw [insertDescBy]
    split
    · rename_i hlt
      rw [List.pairwise_cons]
      constructor
      · intro z hz
        rcases List.mem_cons.mp hz with h' | h'
        · subst h'
          omega
        · have := hp.1 z h'
          omega
      · rw [List.pairwise_cons]
        exact hp
    · rename_i hge
      rw [List.pairwise_cons]
      constructor
      · intro z hz
        rcases (mem_insertDescBy score x ys z).mp hz with h' | h'
        · subst h'
          omega
        · exact hp.1 z h'
      · exact ih hp.2

/-- The descending sort is sorted by descending score. -/
theorem sorted_sortDescBy (score : α → Nat) :
    ∀ (l : List α), (sortDescBy score l).Pairwise (fun a b => score b ≤ score a) := by
  intro l
  induction l with
  | nil => simp [sortDescBy]
  | cons x xs ih => exact sorted_insertDescBy score x (sortDescBy score xs) ih

/-- Deduplication yields a sublist. -/
theorem dedupKeys_sublist : ∀ (l : List Suggestion) (seen : List String),
    (dedupKeys l seen).Sublist l := by
  intro l
  induction l with
  | nil => intro seen; simp [dedupKeys]
  | cons e es ih =>
    intro seen
    rw [dedupKeys]
    split
    · exact (ih seen).cons e
    · exact (ih (e.key :: seen)).cons₂ e

/-- No element surviving deduplication carries an already-seen key. -/
theorem dedupKeys_not_seen : ∀ (l : List Suggestion) (seen : List String)
    (e : Suggestion), e ∈ dedupKeys l seen → e.key ∉ seen := by
  intro l
  induction l with
  | nil => intro seen e h; simp [dedupKeys] at h
  | cons x xs ih =>
    intro seen e h
    rw [dedupKeys] at h
    split at h
    · exact ih seen e h
    · rcases List.mem_cons.mp h with h' | h'
      · subst h'
        assumption
      · have := ih (x.key :: seen) e h'
        intro hc
        exact this (List.mem_cons_of_mem _ hc)

/-- Deduplication leaves pairwise-distinct collection ids. -/
theorem dedupKeys_pairwise : ∀ (l : List Suggestion) (seen : List String),
    (dedupKeys l seen).Pairwise (fun a b => a.key ≠ b.key) := by
  intro l
  induction l with
  | nil => intro seen; simp [dedupKeys]
  | cons x xs ih =>
    intro seen
    rw [dedupKeys]
    split
    · exact ih seen
    · rw [List.pairwise_cons]
      refine ⟨?_, ih (x.key :: seen)⟩
      intro b hb
      have := dedupKeys_not_seen xs (x.key :: seen) b hb
      intro hc
      exact this (hc ▸ List.mem_cons_self x.key seen)

/-- Every entry of one identifier kind has confidence 100 and the tier of
that kind. -/
theorem kindMatches_props (cl : SmartClient) (item : SItem) (k : IdKind) :
    ∀ e ∈ kindMatches cl item k,
      e.score = 100 ∧ e.match_type = "exact_" ++ kindName k := by
  intro e he
  rw [kindMatches] at he
  split at he
  · rcases List.mem_filterMap.mp he with ⟨ex, _, hf⟩
    simp only at hf
    split at hf
    · cases hf
      exact ⟨rfl, rfl⟩
    · cases hf
  · cases he

/-- Introduction rule for an exact-identifier hit: a truthy candidate
identifier equal to the extracted identifier of a surfaced item puts the
corresponding exact candidate into that kind's matches. -/
theorem mem_kindMatches (cl : SmartClient) (item ex : SItem) (k : IdKind)
    (id : String) (hid : extract_identifier item k = some id) (hne : id ≠ "")
    (hmem : ex ∈ cl.searchItems id)
    (hexid : extract_identifier ex k = some id) :
    mkExactCand ex k id ∈ kindMatches cl item k := by
  rw [kindMatches, hid]
  have ht : strTruthyO (some id) = true := by
    simp [strTruthyO, strTruthy, hne]
  rw [if_pos ht]
  simp only [Option.getD_some]
  refine List.mem_filterMap.mpr ⟨ex, hmem, ?_⟩
  simp [hexid, ht]

/-- With a usable title and a non-empty exact result, `find_duplicates`
returns exactly the exact matches and never reaches the fuzzy pass. -/
theorem find_duplicates_exact (cl : SmartClient) (item : SItem) (limit : Nat)
    (hnt : normalize_title (item.title.getD "") ≠ "")
    (hex : exactMatches cl item ≠ []) :
    find_duplicates cl item limit = (exactMatches cl item, false) := by
  rw [find_duplicates]
  simp only [if_neg hnt, if_neg hex]

/-- Key membership in one conditional one-pair segment of the mapped
item. -/
theorem mem_keys_seg (k k' : String) (v : ZVal) (c : Prop) [Decidable c] :
    (k ∈ ((if c then [(k', v)] else []) : List (String × ZVal)).map Prod.fst) ↔
      (c ∧ k = k') := by
  split
  · rename_i hc
    simp [hc]
  · rename_i hc
    simp [hc]

/-- Key membership in one conditional one-key segment. -/
theorem mem_ite_singleton (c : Prop) [Decidable c] (k k' : String) :
    (k ∈ (if c then [k'] else [])) ↔ c ∧ k = k' := by
  split
  · rename_i hc
    simp [hc]
  · rename_i hc
    simp [hc]

/-- The key list of the mapped item, segment by segment. -/
theorem keys_eq (a : Article) (et : Option (List String)) :
    (map_pubmed_to_zotero a et).map Prod.fst =
      ["itemType", "title", "abstractNote"]
      ++ (if mappedCreators a ≠ [] then ["creators"] else [])
      ++ (if strTruthyO a.journal then ["publicationTitle"] else [])
      ++ (if strTruthyO a.journal_abbrev then ["journalAbbreviation"] else [])
      ++ (if mappedDateParts a ≠ [] then ["date"] else [])
      ++ (if strTruthyO a.volume then ["volume"] else [])
      ++ (if strTruthyO a.issue then ["issue"] else [])
      ++ (if strTruthyO a.pages then ["pages"] else [])
      ++ (if strTruthyO a.doi then ["DOI"] else [])
      ++ (if strTruthyO a.issn then ["ISSN"] else [])
      ++ (if strTruthyO a.language then ["language"] else [])
      ++ (if mappedExtraParts a ≠ [] then ["extra"] else [])
      ++ (if mappedTags a et ≠ [] then ["tags"] else []) := by
  rw [map_pubmed_to_zotero]
  simp only [List.map_append, apply_ite (List.map (Prod.fst : String × ZVal → String)),
    List.map_cons, List.map_nil]

/-- Characterization of the keys of the mapped item: the three
unconditional keys, and one key per optional field exactly when its
source data is truthy/non-empty. -/
theorem mem_keys (a : Article) (et : Option (List String)) (k : String) :
    k ∈ (map_pubmed_to_zotero a et).map Prod.fst ↔
      (k = "itemType" ∨ k = "title" ∨ k = "abstractNote"
       ∨ (mappedCreators a ≠ [] ∧ k = "creators")
       ∨ (strTruthyO a.journal = true ∧ k = "publicationTitle")
       ∨ (strTruthyO a.journal_abbrev = true ∧ k = "journalAbbreviation")
       ∨ (mappedDateParts a ≠ [] ∧ k = "date")
       ∨ (strTruthyO a.volume = true ∧ k = "volume")
       ∨ (strTruthyO a.issue = true ∧ k = "issue")
       ∨ (strTruthyO a.pages = true ∧ k = "pages")
       ∨ (strTruthyO a.doi = true ∧ k = "DOI")
       ∨ (strTruthyO a.issn = true ∧ k = "ISSN")
       ∨ (strTruthyO a.language = true ∧ k = "language")
       ∨ (mappedExtraParts a ≠ [] ∧ k = "extra")
       ∨ (mappedTags a et ≠ [] ∧ k = "tags")) := by
  rw [keys_eq]
  simp only [List.mem_append, List.mem_cons, List.not_mem_nil, or_false,
    mem_ite_singleton, or_assoc]

/-- A failed collection resolution is returned as-is, with no write
issued. -/
theorem batch_import_failure (collections : List Col) (nm ky : Option String)
    (pmids : List String) (articles : List Article) (tags : Option (List String))
    (sk : Bool) (lib : List LibItem) (wr : Except String Unit)
    (e : String) (s : Option (List String)) (av : List Col)
    (hres : resolveCollection collections nm ky = .failure e s av) :
    batch_import_from_pubmed collections nm ky pmids articles tags sk lib wr =
      (.resolveFailure e s av, false) := by
  rw [batch_import_from_pubmed, hres]

/-- An empty PMID list aborts with an input error and no write. -/
theorem batch_import_empty_pmids (collections : List Col) (nm ky : Option String)
    (pmids : List String) (articles : List Article) (tags : Option (List String))
    (sk : Bool) (lib : List LibItem) (wr : Except String Unit)
    (validated : Option CollectionInfo)
    (hres : resolveCollection collections nm ky = .ok validated)
    (hp : pmids = []) :
    batch_import_from_pubmed collections nm ky pmids articles tags sk lib wr =
      (.inputError "No valid PMIDs provided", false) := by
  rw [batch_import_from_pubmed, hres]
  dsimp only
  rw [if_pos hp]

/-- An empty fetched-article list aborts with an input error and no
write. -/
theorem batch_import_empty_articles (collections : List Col) (nm ky : Option String)
    (pmids : List String) (articles : List Article) (tags : Option (List String))
    (sk : Bool) (lib : List LibItem) (wr : Except String Unit)
    (validated : Option CollectionInfo)
    (hres : resolveCollection collections nm ky = .ok validated)
    (hp : pmids ≠ []) (ha : articles = []) :
    batch_import_from_pubmed collections nm ky pmids articles tags sk lib wr =
      (.inputError "No articles found for provided PMIDs", false) := by
  rw [batch_import_from_pubmed, hres]
  dsimp only
  rw [if_neg hp, if_pos ha]

/-- C2: for every batch run that returns a BatchReport, the report total
equals the number of source records (fetched articles) submitted to the
per-record loop, and added + skipped + warnings + failed equals total. -/
theorem C2_report_total_invariant
    (collections : List Col) (nm ky : Option String) (pmids : List String)
    (articles : List Article) (tags : Option (List String)) (sk : Bool)
    (lib : List LibItem) (wr : Except String Unit)
    (r : BatchImportResult) (w : Bool)
    (h : batch_import_from_pubmed collections nm ky pmids articles tags sk lib wr =
      (.report r, w)) :
    r.total = articles.length ∧
    r.added + r.skipped + r.warnings + r.failed = r.total := by
  cases hres : resolveCollection collections nm ky with
  | failure e s avail =>
    rw [batch_import_failure collections nm ky pmids articles tags sk lib wr
      e s avail hres] at h
    simp at h
  | ok validated =>
    by_cases hp : pmids = []
    · rw [batch_import_empty_pmids collections nm ky pmids articles tags sk lib wr
        validated hres hp] at h
      simp at h
    · by_cases ha : articles = []
      · rw [batch_import_empty_articles collections nm ky pmids articles tags sk lib wr
          validated hres hp ha] at h
        simp at h
      · rw [batch_import_run collections nm ky pmids articles tags sk lib wr
          validated hres hp ha] at h
        rw [Prod.mk.injEq] at h
        obtain ⟨h1, _⟩ := h
        rw [BatchOut.report.injEq] at h1
        subst h1
        obtain ⟨_, htot, hsum⟩ := recordStep_fold sk
          (checkOf sk lib pmids articles) tags (collectionKeysArg validated)
          articles ({}, [])
        have hA := applyCollectionKey_fields validated
          ((articles.foldl (recordStep sk (checkOf sk lib pmids articles) tags
            (collectionKeysArg validated)) ({}, [])).1)
        simp only [sumCounts] at hsum
        constructor
        · rw [hA.1, htot]
          simp
        · rw [hA.1, hA.2.1, hA.2.2.1, hA.2.2.2.1, hA.2.2.2.2.1, htot]
          simp at hsum ⊢
          omega

/-- Witness for C2: a run of two clean records reports total 2 and
balanced counters. -/
theorem C2_witness :
    (reportOf c2run).total = 2 ∧
    (reportOf c2run).added + (reportOf c2run).skipped + (reportOf c2run).warnings +
      (reportOf c2run).failed = (reportOf c2run).total := by
  have h := C2_report_total_invariant [] none none ["1", "2"] c2articles none false []
    (.ok ()) (reportOf c2run) c2run.2 rfl
  exact ⟨h.1, h.2⟩

/-- C1: the spec promises that a clean (non-duplicate) record is mapped
with the resolved collection id and extra tags attached, buffered, written
and reported Added (one clean record gives added = 1). The code cannot do
this, for two compounding reasons. First, the destination is never
resolved: the validation fetch `zotero_client.list_collections()` raises
`AttributeError` (the wired `ZoteroClient` defines only `get_collections`)
and the handler at `batch_tools.py` lines 211-220 silently drops the
supplied name. Second, `batch_tools.py` calls `map_pubmed_to_zotero` with
the keyword argument `collection_keys`, which the mapper in
`pubmed_mapper.py` does not accept — the repository's own tests
(`test_pubmed_mapper.py::test_map_collection_keys`) expect that parameter.
Evaluating the batch on one clean record with a destination name and an
extra tag: the record ends Failed with the keyword-argument `TypeError`,
added = 0, no collection key is recorded, and the write call is never
issued. -/
theorem C1_clean_record_not_added :
    c1run = (.report (reportOf c1run), false) ∧
    (reportOf c1run).total = 1 ∧
    (reportOf c1run).added = 0 ∧
    (reportOf c1run).failed = 1 ∧
    (reportOf c1run).failed_items.map ImportedItem.error =
      [some ("Mapping error: TypeError: map_pubmed_to_zotero() got an unexpected " ++
        "keyword argument collection_keys")] ∧
    (reportOf c1run).collection_key = none := by
  have hres : resolveCollection [⟨"CK", "Neuro"⟩] (some "Neuro") none =
      .ok none := rfl
  have h := batch_import_run [⟨"CK", "Neuro"⟩] (some "Neuro") none ["38353755"]
    [c1article] (some ["t1"]) true [] (.ok ()) none hres
    (by simp) (by simp)
  have hc : checkOf true [] ["38353755"] [c1article] = {} := by
    rw [checkOf]
    simp [batch_check_nil]
  rw [hc] at h
  have hc1 : c1run = (.report (applyCollectionKey none
      (([c1article].foldl (recordStep true {} (some ["t1"])
        (collectionKeysArg none)) ({}, [])).1)), false) := h
  refine ⟨?_, ?_, ?_, ?_, ?_, ?_⟩ <;> rw [hc1] <;> rfl

/-- C6: the spec scenario has the single batch-write call raising and all
buffered records retroactively marked Failed with the same write error.
In the code this scenario is unreachable: every mapping attempt raises the
keyword-argument `TypeError` first, so the buffer is always empty and the
external write call is never issued for any input (first conjunct).
Evaluating a batch of five otherwise-valid records with the write set up
to raise: all five end Failed with per-record mapping errors — not the
write error — added = 0 and success = false, with the write never
invoked. -/
theorem C6_write_failure_unreachable :
    (∀ (collections : List Col) (nm ky : Option String) (pmids : List String)
       (articles : List Article) (tags : Option (List String)) (sk : Bool)
       (lib : List LibItem) (wr : Except String Unit),
       (batch_import_from_pubmed collections nm ky pmids articles tags sk lib wr).2 =
         false) ∧
    c6run = (.report (reportOf c6run), false) ∧
    (reportOf c6run).failed = 5 ∧
    (reportOf c6run).added = 0 ∧
    (reportOf c6run).success = false ∧
    (reportOf c6run).failed_items.map ImportedItem.error =
      List.replicate 5 (some ("Mapping error: TypeError: map_pubmed_to_zotero() got " ++
        "an unexpected keyword argument collection_keys")) := by
  have hgen : ∀ (collections : List Col) (nm ky : Option String) (pmids : List String)
      (articles : List Article) (tags : Option (List String)) (sk : Bool)
      (lib : List LibItem) (wr : Except String Unit),
      (batch_import_from_pubmed collections nm ky pmids articles tags sk lib wr).2 =
        false := by
    intro collections nm ky pmids articles tags sk lib wr
    cases hres : resolveCollection collections nm ky with
    | failure e s avail =>
      rw [batch_import_failure collections nm ky pmids articles tags sk lib wr
        e s avail hres]
    | ok validated =>
      by_cases hp : pmids = []
      · rw [batch_import_empty_pmids collections nm ky pmids articles tags sk lib wr
          validated hres hp]
      · by_cases ha : articles = []
        · rw [batch_import_empty_articles collections nm ky pmids articles tags sk
            lib wr validated hres hp ha]
        · rw [batch_import_run collections nm ky pmids articles tags sk lib wr
            validated hres hp ha]
  have hres : resolveCollection [] none none = .ok none := rfl
  have h := batch_import_run [] none none ["1", "2", "3", "4", "5"] c6articles none
    true [] (.error "Simulated write failure") none hres (by simp) (by simp [c6articles])
  have hc : checkOf true [] ["1", "2", "3", "4", "5"] c6articles = {} := by
    rw [checkOf]
    simp [batch_check_nil]
  rw [hc] at h
  have hc6 : c6run = (.report (applyCollectionKey none
      ((c6articles.foldl (recordStep true {} none (collectionKeysArg none))
        ({}, [])).1)), false) := h
  refine ⟨hgen, ?_, ?_, ?_, ?_, ?_⟩ <;> rw [hc6] <;> rfl

/-- C3: the spec (and the claim) promise that an unmatched destination
name or key aborts the whole batch with a structured failure — carrying
similar-name suggestions and a capped snapshot — before any write, and the
validation body of `batch_tools.py` lines 159-209 implements exactly that.
But that body is unreachable in the wired program: both branches fetch the
snapshot via `zotero_client.list_collections()`, which does not exist on
the injected `ZoteroClient`, and the handler at lines 211-220 swallows the
`AttributeError`. Resolution therefore always succeeds: an unmatched name
is silently dropped (the batch proceeds with no destination), an unmatched
key proceeds unvalidated — while the dead body, had the fetch returned,
would have produced the promised structured failure. -/
theorem C3_validation_unreachable :
    (∀ (collections : List Col) (nm ky : Option String),
       ∃ v, resolveCollection collections nm ky = .ok v) ∧
    resolveCollection c3cols (some "Does Not Exist") none = .ok none ∧
    resolveCollection c3cols none (some "BADKEY") =
      .ok (some ⟨"BADKEY", "unknown (validation failed)"⟩) ∧
    validateCollection c3cols (some "Does Not Exist") none =
      .failure "Collection Does Not Exist not found" none
        [⟨"K1", "Neurology"⟩] ∧
    c3run = (.report (reportOf c3run), false) ∧
    (reportOf c3run).collection_key = none := by
  have hforall : ∀ (collections : List Col) (nm ky : Option String),
      ∃ v, resolveCollection collections nm ky = .ok v := by
    intro collections nm ky
    simp only [resolveCollection, list_collections_call]
    split
    · split
      · exact ⟨_, rfl⟩
      · exact ⟨_, rfl⟩
    · exact ⟨_, rfl⟩
  have hres : resolveCollection c3cols (some "Does Not Exist") none = .ok none := rfl
  have h := batch_import_run c3cols (some "Does Not Exist") none ["1"]
    [{ pmid := some "1", title := some "T" }] none true [] (.ok ()) none hres
    (by simp) (by simp)
  have hc : checkOf true [] ["1"] [{ pmid := some "1", title := some "T" }] = {} := by
    rw [checkOf]
    simp [batch_check_nil]
  rw [hc] at h
  have hc3 : c3run = (.report (applyCollectionKey none
      (([({ pmid := some "1", title := some "T" } : Article)].foldl
        (recordStep true {} none (collectionKeysArg none)) ({}, [])).1)), false) := h
  refine ⟨hforall, hres, rfl, rfl, ?_, ?_⟩ <;> rw [hc3] <;> rfl

/-- The per-record fold never touches the recorded collection key. -/
theorem recordStep_fold_ck (sk : Bool) (check : CheckResult)
    (tags : Option (List String)) (ck : Option (List String)) :
    ∀ (l : List Article)
      (acc : BatchImportResult × List (String × String × List (String × ZVal))),
      (l.foldl (recordStep sk check tags ck) acc).1.collection_key =
        acc.1.collection_key := by
  intro l
  induction l with
  | nil => intro acc; rfl
  | cons a rest ih =>
    intro acc
    obtain ⟨it, hit⟩ := recordStep_eq_add sk check tags ck acc a
    rw [List.foldl_cons, hit, ih (add_item acc.1 it, acc.2)]
    exact add_item_ck acc.1 it

/-- A report with a falsy collection key renders the missing-collection
warning block. -/
theorem report_lines_warning (r : BatchImportResult)
    (h : strTruthyO r.collection_key = false) :
    "⚠️  WARNING: No collection specified!" ∈ report_lines r := by
  rw [report_lines, h]
  simp [noCollectionWarning]

/-- C9: every batch run completed with no destination collection returns a
report whose rendered human summary contains the explicit warning that
items were saved without a collection, and the summary is rendered
unconditionally — for successful and failed batches alike. -/
theorem C9_no_destination_warning (cols : List Col) (pmids : List String)
    (articles : List Article) (tags : Option (List String)) (sk : Bool)
    (lib : List LibItem) (wr : Except String Unit)
    (r : BatchImportResult) (w : Bool)
    (h : batch_import_from_pubmed cols none none pmids articles tags sk lib wr =
      (.report r, w)) :
    r.collection_key = none ∧
    "⚠️  WARNING: No collection specified!" ∈ report_lines r ∧
    generate_report r = String.intercalate "\n" (report_lines r) := by
  have hres : resolveCollection cols none none = .ok none := rfl
  by_cases hp : pmids = []
  · rw [batch_import_empty_pmids cols none none pmids articles tags sk lib wr
      none hres hp] at h
    simp at h
  · by_cases ha : articles = []
    · rw [batch_import_empty_articles cols none none pmids articles tags sk lib wr
        none hres hp ha] at h
      simp at h
    · rw [batch_import_run cols none none pmids articles tags sk lib wr
        none hres hp ha] at h
      rw [Prod.mk.injEq] at h
      obtain ⟨h1, _⟩ := h
      rw [BatchOut.report.injEq] at h1
      subst h1
      have hck : (applyCollectionKey none
          ((articles.foldl (recordStep sk (checkOf sk lib pmids articles) tags
            (collectionKeysArg none)) ({}, [])).1)).collection_key = none := by
        rw [applyCollectionKey_none]
        rw [recordStep_fold_ck sk (checkOf sk lib pmids articles) tags
          (collectionKeysArg none) articles ({}, [])]
      refine ⟨hck, ?_, rfl⟩
      apply report_lines_warning
      rw [hck]
      rfl

/-- Witness for C9: a failed run with no destination still renders the
warning. -/
theorem C9_witness :
    (reportOf c9run).collection_key = none ∧
    "⚠️  WARNING: No collection specified!" ∈ report_lines (reportOf c9run) ∧
    generate_report (reportOf c9run) =
      String.intercalate "\n" (report_lines (reportOf c9run)) := by
  exact C9_no_destination_warning [] ["1"] [{ pmid := some "1", title := some "P1" }]
    none false [] (.error "boom") (reportOf c9run) c9run.2 rfl

/-- C4 (amended): for a candidate with a usable title, `find_duplicates`
evaluates the identifier kinds in the fixed order DOI, ISBN, PMID and
collects the exact matches of all of them — it does not stop at the first
kind that matches; every collected entry has confidence 100 and a tier
`exact_<kind>`; when any exact hit exists, the collected list is returned
immediately and no fuzzy title comparison is performed. -/
theorem C4_exact_all_kinds (cl : SmartClient) (item : SItem) (limit : Nat)
    (hnt : normalize_title (item.title.getD "") ≠ "")
    (hex : exactMatches cl item ≠ []) :
    find_duplicates cl item limit = (exactMatches cl item, false) ∧
    exactMatches cl item =
      kindMatches cl item .DOI ++ kindMatches cl item .ISBN ++
        kindMatches cl item .PMID ∧
    ∀ e ∈ exactMatches cl item,
      e.score = 100 ∧
      (e.match_type = "exact_DOI" ∨ e.match_type = "exact_ISBN" ∨
       e.match_type = "exact_PMID") := by
  refine ⟨find_duplicates_exact cl item limit hnt hex, rfl, ?_⟩
  intro e he
  rw [exactMatches] at he
  rcases List.mem_append.mp he with h1 | hP
  · rcases List.mem_append.mp h1 with hD | hI
    · have hp := kindMatches_props cl item .DOI e hD
      exact ⟨hp.1, Or.inl (by rw [hp.2]; rfl)⟩
    · have hp := kindMatches_props cl item .ISBN e hI
      exact ⟨hp.1, Or.inr (Or.inl (by rw [hp.2]; rfl))⟩
  · have hp := kindMatches_props cl item .PMID e hP
    exact ⟨hp.1, Or.inr (Or.inr (by rw [hp.2]; rfl))⟩

/-- Witness for C4 (amended): the concrete client and candidate of the
counterexample satisfy the amended statement. -/
theorem C4_witness :
    find_duplicates cl4 cand4 100 = (exactMatches cl4 cand4, false) ∧
    exactMatches cl4 cand4 =
      kindMatches cl4 cand4 .DOI ++ kindMatches cl4 cand4 .ISBN ++
        kindMatches cl4 cand4 .PMID ∧
    ∀ e ∈ exactMatches cl4 cand4,
      e.score = 100 ∧
      (e.match_type = "exact_DOI" ∨ e.match_type = "exact_ISBN" ∨
       e.match_type = "exact_PMID") :=
  C4_exact_all_kinds cl4 cand4 100 (by decide) (by decide)

/-- Counterexample for C4 as stated: the DOI kind yields a match, yet the
returned list also carries an `exact_ISBN` entry — the matcher did not
stop at the first kind that yielded a match. -/
theorem C4_counterexample :
    kindMatches cl4 cand4 .DOI ≠ [] ∧
    (find_duplicates cl4 cand4 100).1.map MatchCand.match_type =
      ["exact_DOI", "exact_ISBN"] := by
  decide

/-- C5 (amended): for a candidate whose title normalizes to a non-empty
string and whose DOI (truthy, case-insensitively normalized) equals the
extracted DOI of a surfaced existing item, `find_duplicates` returns that
item with tier `exact_DOI` and confidence 100 and performs no fuzzy
comparison. -/
theorem C5_doi_exact_match (cl : SmartClient) (item ex : SItem) (id : String)
    (limit : Nat)
    (hnt : normalize_title (item.title.getD "") ≠ "")
    (hid : extract_identifier item .DOI = some id) (hne : id ≠ "")
    (hmem : ex ∈ cl.searchItems id)
    (hexid : extract_identifier ex .DOI = some id) :
    mkExactCand ex .DOI id ∈ (find_duplicates cl item limit).1 ∧
    (mkExactCand ex .DOI id).match_type = "exact_DOI" ∧
    (mkExactCand ex .DOI id).score = 100 ∧
    (find_duplicates cl item limit).2 = false := by
  have hk := mem_kindMatches cl item ex .DOI id hid hne hmem hexid
  have hmm : mkExactCand ex .DOI id ∈ exactMatches cl item := by
    rw [exactMatches]
    exact List.mem_append.mpr (Or.inl (List.mem_append.mpr (Or.inl hk)))
  have hex : exactMatches cl item ≠ [] := List.ne_nil_of_mem hmm
  have hfd := find_duplicates_exact cl item limit hnt hex
  refine ⟨?_, rfl, rfl, ?_⟩
  · rw [hfd]
    exact hmm
  · rw [hfd]

/-- Witness for C5 (amended): a candidate with a usable title whose DOI
matches the stored item `ex5`. -/
theorem C5_witness :
    mkExactCand ex5 .DOI "10.1/x" ∈ (find_duplicates cl5 cand5w 100).1 ∧
    (mkExactCand ex5 .DOI "10.1/x").match_type = "exact_DOI" ∧
    (mkExactCand ex5 .DOI "10.1/x").score = 100 ∧
    (find_duplicates cl5 cand5w 100).2 = false :=
  C5_doi_exact_match cl5 cand5w ex5 "10.1/x" 100 (by decide) (by decide) (by decide)
    (by decide) (by decide)

/-- Counterexample for C5 as stated: a candidate with a blank title whose
DOI matches the stored item exactly — the claim promises the exact-doi
match regardless of the title, but the blank-title short-circuit returns
an empty result without ever checking the DOI. -/
theorem C5_counterexample :
    extract_identifier cand5 .DOI = some "10.1/x" ∧
    ex5 ∈ cl5.searchItems "10.1/x" ∧
    extract_identifier ex5 .DOI = some "10.1/x" ∧
    find_duplicates cl5 cand5 100 = ([], false) := by
  decide

/-- C7 (amended): the mapper is a total function — it never fails on
missing optional fields — and it omits every absent optional field from
the produced item, except `title` and `abstractNote`, which are always
emitted and default to the empty string when the source lacks them. -/
theorem C7_optional_fields (a : Article) (et : Option (List String)) :
    ("itemType", ZVal.s "journalArticle") ∈ map_pubmed_to_zotero a et ∧
    ("title", ZVal.s (a.title.getD "")) ∈ map_pubmed_to_zotero a et ∧
    ("abstractNote", ZVal.s (a.abstract.getD "")) ∈ map_pubmed_to_zotero a et ∧
    (strTruthyO a.journal = false →
      "publicationTitle" ∉ (map_pubmed_to_zotero a et).map Prod.fst) ∧
    (strTruthyO a.journal_abbrev = false →
      "journalAbbreviation" ∉ (map_pubmed_to_zotero a et).map Prod.fst) ∧
    (strTruthyO a.year = false →
      "date" ∉ (map_pubmed_to_zotero a et).map Prod.fst) ∧
    (strTruthyO a.volume = false →
      "volume" ∉ (map_pubmed_to_zotero a et).map Prod.fst) ∧
    (strTruthyO a.issue = false →
      "issue" ∉ (map_pubmed_to_zotero a et).map Prod.fst) ∧
    (strTruthyO a.pages = false →
      "pages" ∉ (map_pubmed_to_zotero a et).map Prod.fst) ∧
    (strTruthyO a.doi = false →
      "DOI" ∉ (map_pubmed_to_zotero a et).map Prod.fst) ∧
    (strTruthyO a.issn = false →
      "ISSN" ∉ (map_pubmed_to_zotero a et).map Prod.fst) ∧
    (strTruthyO a.language = false →
      "language" ∉ (map_pubmed_to_zotero a et).map Prod.fst) ∧
    (strTruthyO a.pmid = false ∧ strTruthyO a.pmc_id = false ∧
      a.publication_types = [] ∧ extract_unique_affiliations a.authors_full = [] →
      "extra" ∉ (map_pubmed_to_zotero a et).map Prod.fst) ∧
    (a.authors_full = [] ∧ a.authors = [] →
      "creators" ∉ (map_pubmed_to_zotero a et).map Prod.fst) ∧
    (a.keywords = [] ∧ a.mesh_terms = [] ∧ et.getD [] = [] →
      "tags" ∉ (map_pubmed_to_zotero a et).map Prod.fst) := by
  refine ⟨?_, ?_, ?_, ?_, ?_, ?_, ?_, ?_, ?_, ?_, ?_, ?_, ?_, ?_, ?_⟩
  · simp [map_pubmed_to_zotero]
  · simp [map_pubmed_to_zotero]
  · simp [map_pubmed_to_zotero]
  · intro h
    rw [mem_keys]
    simp [h]
  · intro h
    rw [mem_keys]
    simp [h]
  · intro h
    have hdp : mappedDateParts a = [] := by simp [mappedDateParts, h]
    rw [mem_keys]
    simp [hdp]
  · intro h
    rw [mem_keys]
    simp [h]
  · intro h
    rw [mem_keys]
    simp [h]
  · intro h
    rw [mem_keys]
    simp [h]
  · intro h
    rw [mem_keys]
    simp [h]
  · intro h
    rw [mem_keys]
    simp [h]
  · intro h
    rw [mem_keys]
    simp [h]
  · intro h
    have hep : mappedExtraParts a = [] := by
      simp [mappedExtraParts, h.1, h.2.1, h.2.2.1, h.2.2.2]
    rw [mem_keys]
    simp [hep]
  · intro h
    have hcs : mappedCreators a = [] := by simp [mappedCreators, h.1, h.2]
    rw [mem_keys]
    simp [hcs]
  · intro h
    have hts : mappedTags a et = [] := by simp [mappedTags, h.1, h.2.1, h.2.2]
    rw [mem_keys]
    simp [hts]

/-- Witness for C7 (amended): the empty article, where every guard is
discharged. -/
theorem C7_witness :
    ("itemType", ZVal.s "journalArticle") ∈ map_pubmed_to_zotero ({} : Article) none ∧
    ("title", ZVal.s "") ∈ map_pubmed_to_zotero ({} : Article) none ∧
    ("abstractNote", ZVal.s "") ∈ map_pubmed_to_zotero ({} : Article) none ∧
    "publicationTitle" ∉ (map_pubmed_to_zotero ({} : Article) none).map Prod.fst ∧
    "journalAbbreviation" ∉ (map_pubmed_to_zotero ({} : Article) none).map Prod.fst ∧
    "date" ∉ (map_pubmed_to_zotero ({} : Article) none).map Prod.fst ∧
    "volume" ∉ (map_pubmed_to_zotero ({} : Article) none).map Prod.fst ∧
    "issue" ∉ (map_pubmed_to_zotero ({} : Article) none).map Prod.fst ∧
    "pages" ∉ (map_pubmed_to_zotero ({} : Article) none).map Prod.fst ∧
    "DOI" ∉ (map_pubmed_to_zotero ({} : Article) none).map Prod.fst ∧
    "ISSN" ∉ (map_pubmed_to_zotero ({} : Article) none).map Prod.fst ∧
    "language" ∉ (map_pubmed_to_zotero ({} : Article) none).map Prod.fst ∧
    "extra" ∉ (map_pubmed_to_zotero ({} : Article) none).map Prod.fst ∧
    "creators" ∉ (map_pubmed_to_zotero ({} : Article) none).map Prod.fst ∧
    "tags" ∉ (map_pubmed_to_zotero ({} : Article) none).map Prod.fst := by
  have h := C7_optional_fields ({} : Article) none
  exact ⟨h.1, h.2.1, h.2.2.1, h.2.2.2.1 (by decide), h.2.2.2.2.1 (by decide),
    h.2.2.2.2.2.1 (by decide), h.2.2.2.2.2.2.1 (by decide),
    h.2.2.2.2.2.2.2.1 (by decide), h.2.2.2.2.2.2.2.2.1 (by decide),
    h.2.2.2.2.2.2.2.2.2.1 (by decide), h.2.2.2.2.2.2.2.2.2.2.1 (by decide),
    h.2.2.2.2.2.2.2.2.2.2.2.1 (by decide),
    h.2.2.2.2.2.2.2.2.2.2.2.2.1 (by decide),
    h.2.2.2.2.2.2.2.2.2.2.2.2.2.1 (by decide),
    h.2.2.2.2.2.2.2.2.2.2.2.2.2.2 (by decide)⟩

/-- Counterexample for C7 as stated: the empty article has no abstract,
yet the produced item carries `abstractNote` set to the empty string
instead of omitting it (and likewise `title`). -/
theorem C7_counterexample :
    ({} : Article).abstract = none ∧
    map_pubmed_to_zotero ({} : Article) none =
      [("itemType", ZVal.s "journalArticle"), ("title", ZVal.s ""),
       ("abstractNote", ZVal.s "")] :=
  ⟨rfl, rfl⟩

/-- C8 (spec-modelled): the Collection Suggester returns at most five
entries, sorted by descending score, deduplicated by collection id
(keeping the first — after the stable descending sort, highest-scoring —
occurrence), and a collection whose display name appears verbatim as a
substring of the item's normalized title scores 90 with reason
"name in title". -/
theorem C8_suggest_shape (psim sim : String → String → Nat) (item : SuggestItem)
    (cols : List Col) :
    (suggest psim sim item cols).length ≤ 5 ∧
    (suggest psim sim item cols).Pairwise (fun a b => b.score ≤ a.score) ∧
    (suggest psim sim item cols).Pairwise (fun a b => a.key ≠ b.key) ∧
    ∀ c ∈ cols,
      containsChars c.name.data (normalize_title item.title).data = true →
      scoreCollection psim sim item c = some ⟨c.key, c.name, 90, "name in title"⟩ := by
  refine ⟨?_, ?_, ?_, ?_⟩
  · exact List.length_take_le 5 _
  · have hs := sorted_sortDescBy Suggestion.score
      (cols.filterMap (scoreCollection psim sim item))
    have hsub := (List.take_sublist 5 _).trans
      (dedupKeys_sublist (sortDescBy Suggestion.score
        (cols.filterMap (scoreCollection psim sim item))) [])
    exact hs.sublist hsub
  · have hd := dedupKeys_pairwise (sortDescBy Suggestion.score
      (cols.filterMap (scoreCollection psim sim item))) []
    exact hd.sublist (List.take_sublist 5 _)
  · intro c _ hsub
    simp [scoreCollection, hsub]

/-- Witness for C8: a snapshot collection whose name occurs verbatim in
the item's normalized title. -/
theorem C8_witness :
    (suggest zeroSim zeroSim sugItem sugCols).length ≤ 5 ∧
    (suggest zeroSim zeroSim sugItem sugCols).Pairwise (fun a b => b.score ≤ a.score) ∧
    (suggest zeroSim zeroSim sugItem sugCols).Pairwise (fun a b => a.key ≠ b.key) ∧
    scoreCollection zeroSim zeroSim sugItem ⟨"k1", "deep learning"⟩ =
      some ⟨"k1", "deep learning", 90, "name in title"⟩ := by
  have h := C8_suggest_shape zeroSim zeroSim sugItem sugCols
  exact ⟨h.1, h.2.1, h.2.2.1,
    h.2.2.2 ⟨"k1", "deep learning"⟩ (by decide) (by decide)⟩

/-- C10 (amended): the batch duplicate check pages through the library
100 items at a time and stops paging once the offset exceeds 5000, so it
examines exactly the first 5100 items of the snapshot; a PMID or DOI
matched by no item inside that window is reported as not existing, and a
record carrying such a PMID is not skipped as a duplicate — in the
current code it then fails at the mapping step rather than being added. -/
theorem C10_window_bound :
    (∀ lib : List LibItem, pageLoopFrom lib 0 = lib.take 5100) ∧
    (∀ (lib : List LibItem) (pmids dois : List String) (p : String),
       (∀ it ∈ lib.take 5100, pmidOfItem it ≠ some p) →
       p ∉ (batch_check_identifiers lib pmids dois).existing_pmids) ∧
    (∀ (lib : List LibItem) (pmids dois : List String) (d : String),
       (∀ it ∈ lib.take 5100, doiKeyOf it ≠ some d) →
       d ∉ (batch_check_identifiers lib pmids dois).existing_dois) ∧
    (∀ (lib : List LibItem) (a : Article) (tags : Option (List String))
       (wr : Except String Unit) (r : BatchImportResult) (w : Bool),
       a.doi = none →
       (∀ it ∈ lib.take 5100, pmidOfItem it ≠ some (a.pmid.getD "")) →
       batch_import_from_pubmed [] none none [a.pmid.getD ""] [a] tags true lib wr =
         (.report r, w) →
       r.skipped = 0 ∧ r.failed = 1 ∧ r.added = 0) := by
  refine ⟨pageLoopFrom_take, ?_, ?_, ?_⟩
  · intro lib pmids dois p hno hmem
    rw [batch_check_eq] at hmem
    rcases scan_fold_pmid_sound pmids (dois.map strLower) (lib.take 5100) {} p hmem
      with h | ⟨it, hit, hpm⟩
    · simp at h
    · exact hno it hit hpm
  · intro lib pmids dois d hno hmem
    rw [batch_check_eq] at hmem
    rcases scan_fold_doi_sound pmids (dois.map strLower) (lib.take 5100) {} d hmem
      with h | ⟨it, hit, hpm⟩
    · simp at h
    · exact hno it hit hpm
  · intro lib a tags wr r w hdoi hno h
    have hres : resolveCollection [] none none = .ok none := rfl
    rw [batch_import_run [] none none [a.pmid.getD ""] [a] tags true lib wr
      none hres (by simp) (by simp)] at h
    rw [Prod.mk.injEq] at h
    obtain ⟨h1, _⟩ := h
    rw [BatchOut.report.injEq] at h1
    subst h1
    have hcheck : (a.pmid.getD "") ∉
        (checkOf true lib [a.pmid.getD ""] [a]).existing_pmids := by
      rw [checkOf, if_pos rfl, batch_check_eq]
      intro hmem
      rcases scan_fold_pmid_sound [a.pmid.getD ""]
        ((articleDois [a]).map strLower) (lib.take 5100) {} (a.pmid.getD "") hmem
        with h' | ⟨it, hit, hpm⟩
      · simp at h'
      · exact hno it hit hpm
    have hstep : recordStep true (checkOf true lib [a.pmid.getD ""] [a]) tags
        (collectionKeysArg none) ({}, []) a =
        (add_item {} { pmid := a.pmid.getD ""
                       title := String.mk ((a.title.getD "Unknown").data.take 100)
                       action := .failed
                       error := some ("Mapping error: TypeError: " ++
                         "map_pubmed_to_zotero() got an unexpected keyword " ++
                         "argument collection_keys") }, []) := by
      rw [recordStep]
      rw [if_neg (by simp [hcheck])]
      rw [if_neg (by rw [hdoi]; simp [strTruthy, strLower, stripChars])]
      rfl
    rw [show ([a].foldl (recordStep true (checkOf true lib [a.pmid.getD ""] [a])
        tags (collectionKeysArg none)) ({}, [])) =
        recordStep true (checkOf true lib [a.pmid.getD ""] [a]) tags
          (collectionKeysArg none) ({}, []) a from rfl, hstep]
    exact ⟨rfl, rfl, rfl⟩

/-- Witness for C10 (amended): a one-item snapshot whose item does not
carry the queried identifiers. -/
theorem C10_witness :
    pageLoopFrom [item42] 0 = [item42].take 5100 ∧
    "7" ∉ (batch_check_identifiers [item42] ["7"] []).existing_pmids ∧
    "10.1/z" ∉ (batch_check_identifiers [item42] [] ["10.1/z"]).existing_dois ∧
    (reportOf w10run).skipped = 0 ∧
    (reportOf w10run).failed = 1 ∧
    (reportOf w10run).added = 0 := by
  have hthm := C10_window_bound
  have hres : resolveCollection [] none none = .ok none := rfl
  have hrun := batch_import_run [] none none ["7"] [article7] none true [item42]
    (.ok ()) none hres (by simp) (by simp)
  have hw : w10run = (.report (applyCollectionKey none
      (([article7].foldl (recordStep true (checkOf true [item42] ["7"] [article7])
        none (collectionKeysArg none)) ({}, [])).1)), false) := hrun
  have h4 := hthm.2.2.2 [item42] article7 none (.ok ())
    (applyCollectionKey none
      (([article7].foldl (recordStep true (checkOf true [item42] ["7"] [article7])
        none (collectionKeysArg none)) ({}, [])).1)) false
    (by decide) (by decide) hrun
  refine ⟨hthm.1 [item42], hthm.2.1 [item42] ["7"] [] "7" (by decide),
    hthm.2.2.1 [item42] [] ["10.1/z"] "10.1/z" (by decide), ?_, ?_, ?_⟩ <;>
    rw [hw] <;> simp only [reportOf]
  · exact h4.1
  · exact h4.2.1
  · exact h4.2.2

/-- Counterexample for C10 as stated: the snapshot item matching PMID 42
sits at index 5100, just beyond the window; the check reports the PMID as
not existing and the record is indeed not skipped, but — contrary to the
claim — it is not imported either: it fails at the mapping step, so
added = 0. -/
theorem C10_counterexample :
    pmidOfItem item42 = some "42" ∧
    (batch_check_identifiers bigLib ["42"] []).existing_pmids = [] ∧
    c10run = (.report (reportOf c10run), false) ∧
    (reportOf c10run).skipped = 0 ∧
    (reportOf c10run).added = 0 ∧
    (reportOf c10run).failed = 1 := by
  have hgen : ∀ (l₁ l₂ : List LibItem) (n : Nat), l₁.length = n →
      (l₁ ++ l₂).take n = l₁ := by
    intro l₁ l₂ n hn
    subst hn
    exact List.take_left _ _
  have hbig : bigLib.take 5100 = List.replicate 5100 blankItem := by
    rw [bigLib]
    exact hgen _ _ _ (List.length_replicate 5100 blankItem)
  have hchk : batch_check_identifiers bigLib ["42"] [] = {} := by
    rw [batch_check_eq, hbig]
    exact foldl_scan_replicate _ _ 5100 {}
  have hres : resolveCollection [] none none = .ok none := rfl
  have h := batch_import_run [] none none ["42"] [article42] none true bigLib
    (.ok ()) none hres (by simp) (by simp)
  have hc : checkOf true bigLib ["42"] [article42] = {} := by
    rw [checkOf, if_pos rfl]
    rw [show articleDois [article42] = [] from rfl]
    exact hchk
  rw [hc] at h
  have hc10 : c10run = (.report (applyCollectionKey none
      (([article42].foldl (recordStep true {} none (collectionKeysArg none))
        ({}, [])).1)), false) := h
  refine ⟨rfl, ?_, ?_, ?_, ?_, ?_⟩
  · rw [hchk]
  · rw [hc10]
    rfl
  · rw [hc10]
    rfl
  · rw [hc10]
    rfl
  · rw [hc10]
    rfl

end ZK
